import Mathlib

/-!
GRIB raster driver (frmts/grib/gribdataset.cpp)

A shallow embedding of `GRIBRasterBand` and `GRIBDataset`: band construction,
`GetDescription`, `IReadBlock`, `ReadGribData`, `Open` and `SetGribMetaData`.

Conventions of the embedding.

* `double` values are exact rationals (`ℚ`): the arithmetic of the driver is a
  handful of products, sums and quotients, and every property below is an
  identity between the expression the code evaluates and the stated one, or an
  evaluation on exactly representable numbers.  The one quotient whose divisor
  can vanish on a grid that `Open` accepts, the inverse flattening
  `a / (a - b)`, is an `ExtDouble`, which is infinite there.
* `gds.Nx` and `gds.Ny` carry the values of degrib's unsigned 32-bit fields.
  The raster size members `nRasterXSize`, `nRasterYSize` and the arguments of
  `IReadBlock` are 32-bit `int`s: storing a grid dimension into a raster size
  member is the conversion `toInt32`, and the `int` arithmetic of the row
  offset is checked by `checkedInt`.
* A nullable pointer is an `Option`; a C undefined behaviour (signed overflow,
  reading through a null pointer or outside the decoded buffer) is the result
  `none`.
* The collaborators that gribdataset.cpp calls but does not define (degrib,
  OGR, CPL) are the fields of `Env`.
-/

namespace GRIB

/-! ## Data coming from degrib -/

/-- One entry of the degrib inventory (`inventoryType`), restricted to the
fields that gribdataset.cpp reads. -/
structure inventoryType where
  start : Int
  subgNum : Int
  longFstLevel : Option String
  deriving DecidableEq, Repr

/-- The values of `gds.projType`: one constructor for each `case` label of the
`switch` in `SetGribMetaData`, and `other` for a value that has no label. -/
inductive ProjType where
  | GS3_LATLON
  | GS3_GAUSSIAN_LATLON
  | GS3_MERCATOR
  | GS3_POLAR
  | GS3_LAMBERT
  | GS3_ORTHOGRAPHIC
  | GS3_EQUATOR_EQUIDIST
  | GS3_AZIMUTH_RANGE
  | other (code : Nat)
  deriving DecidableEq, Repr

/-- The grid definition section (`gdsType`), restricted to the fields that
gribdataset.cpp reads.  `Nx` and `Ny` hold the values of unsigned 32-bit
fields. -/
structure gdsType where
  projType : ProjType
  Nx : Int
  Ny : Int
  Dx : ℚ
  Dy : ℚ
  lon1 : ℚ
  lat1 : ℚ
  majEarth : ℚ
  minEarth : ℚ
  f_sphere : Bool
  scan : Nat
  meshLat : ℚ
  orientLon : ℚ
  scaleLat1 : ℚ
  scaleLat2 : ℚ
  deriving DecidableEq, Repr

/-- The decoded meta data of one message (`grib_MetaData`). -/
structure grib_MetaData where
  gds : gdsType
  deriving DecidableEq, Repr

/-- Conversion of an integer value to a 32-bit `int`: the value modulo `2^32`,
taken between `-2^31` and `2^31 - 1`. -/
def toInt32 (n : Int) : Int := (n + 2147483648) % 4294967296 - 2147483648

/-- The result of an `int` operation whose exact value is `n`: `none` when it is
not representable (signed overflow). -/
def checkedInt (n : Int) : Option Int :=
  if -2147483648 ≤ n ∧ n ≤ 2147483647 then some n else none

/-- A `double` that may be infinite or undefined. -/
inductive ExtDouble where
  | finite (q : ℚ)
  | posInf
  | negInf
  | nan
  deriving DecidableEq, Repr

/-- The `double` quotient `x / y`: the exact quotient when `y` is not zero, and
for a zero divisor an infinity of the sign of `x`, or no number when `x` is
zero too. -/
def doubleDiv (x y : ℚ) : ExtDouble :=
  if y = 0 then
    if 0 < x then .posInf else if x < 0 then .negInf else .nan
  else .finite (x / y)

/-- The degrib flag `GRIB2BIT_2` (second most significant bit of a byte); it is
defined in degrib, outside gribdataset.cpp. -/
def GRIB2BIT_2 : Nat := 64

/-! ## Spatial reference (OGR) -/

/-- The projection method calls made on `oSRS`, each with its arguments in call
order; the argument names are those of the OGR methods. -/
inductive ProjCS where
  | Mercator (dfCenterLat dfCenterLong dfScale dfFalseEasting dfFalseNorthing : ℚ)
  | PS (dfCenterLat dfCenterLong dfScale dfFalseEasting dfFalseNorthing : ℚ)
  | LCC (dfStdP1 dfStdP2 dfCenterLat dfCenterLong dfFalseEasting dfFalseNorthing : ℚ)
  | GEOS (dfCentralMeridian dfSatelliteHeight dfFalseEasting dfFalseNorthing : ℚ)
  deriving DecidableEq, Repr

/-- The arguments of `SetGeogCS`. -/
structure GeogCS where
  pszGeogName : String
  pszDatumName : Option String
  pszSpheroidName : String
  dfSemiMajor : ℚ
  dfInvFlattening : ExtDouble
  deriving DecidableEq, Repr

/-- Modelled from the spec: `OGRSpatialReference` (ogr_spatialref.h and its
implementation are not part of gribdataset.cpp).  The "opaque projection
descriptor (geographic or projected coordinate system)" is the pair of what
the projection call and the `SetGeogCS` call stored; both absent is the empty
spatial reference. -/
structure OGRSpatialReference where
  projcs : Option ProjCS
  geogcs : Option GeogCS
  deriving DecidableEq, Repr

namespace OGRSpatialReference

/-- A freshly constructed `OGRSpatialReference`. -/
def empty : OGRSpatialReference := ⟨none, none⟩

def SetMercator (s : OGRSpatialReference) (lat lon scale fe fn : ℚ) : OGRSpatialReference :=
  { s with projcs := some (.Mercator lat lon scale fe fn) }

def SetPS (s : OGRSpatialReference) (lat lon scale fe fn : ℚ) : OGRSpatialReference :=
  { s with projcs := some (.PS lat lon scale fe fn) }

def SetLCC (s : OGRSpatialReference) (p1 p2 lat lon fe fn : ℚ) : OGRSpatialReference :=
  { s with projcs := some (.LCC p1 p2 lat lon fe fn) }

def SetGEOS (s : OGRSpatialReference) (cm h fe fn : ℚ) : OGRSpatialReference :=
  { s with projcs := some (.GEOS cm h fe fn) }

def SetGeogCS (s : OGRSpatialReference) (name : String) (datum : Option String)
    (spheroid : String) (a : ℚ) (fInv : ExtDouble) : OGRSpatialReference :=
  { s with geogcs := some ⟨name, datum, spheroid, a, fInv⟩ }

def CopyGeogCSFrom (s other : OGRSpatialReference) : OGRSpatialReference :=
  { s with geogcs := other.geogcs }

/-- Whether a projected coordinate system was set. -/
def IsProjected (s : OGRSpatialReference) : Bool := s.projcs.isSome

/-- Wipes the spatial reference. -/
def Clear (_s : OGRSpatialReference) : OGRSpatialReference := empty

end OGRSpatialReference

/-- A coordinate transformation: `Transform(1, &x, &y)` on the point `(x, y)`
gives a success flag and the point it leaves in `x`, `y`. -/
abbrev OGRCoordinateTransformation := ℚ → ℚ → Bool × ℚ × ℚ

/-! ## Collaborators -/

/-- What gribdataset.cpp obtains from code it calls and does not define. -/
structure Env where
  /-- Return value of the header probe `ReadSECT0`. -/
  ReadSECT0 : Int
  /-- Return value of `GRIB2Inventory` and the inventory it builds
  (`LenInv` is the length of the list). -/
  GRIB2Inventory : Int × List inventoryType
  /-- Result of `ReadGrib2Record` on the stream positioned at the given offset,
  for the given sub-grid: the sample buffer left in `*data` (null when none was
  allocated) and the meta data. -/
  ReadGrib2Record : Int → Int → Option (List ℚ) × grib_MetaData
  /-- Result of `OGRCreateCoordinateTransformation` (null when unavailable). -/
  OGRCreateCoordinateTransformation :
    OGRSpatialReference → OGRSpatialReference → Option OGRCoordinateTransformation
  /-- Serialised text of a spatial reference that is not empty. -/
  wkt : OGRSpatialReference → String
  /-- Result of `CPLStrdup`. -/
  CPLStrdup : Option String → Option String
  /-- Result of the base class `GDALPamRasterBand::GetDescription` of band `n`. -/
  PamDescription : Int → String
  /-- Raster size of a dataset before `SetGribMetaData` (base class constructor). -/
  initialRasterSize : Int × Int

/-- Modelled from the spec: `OGRSpatialReference::exportToWkt` (OGR, not part of
gribdataset.cpp).  The projection reference is the "serialized
spatial-reference text, possibly empty": a cleared spatial reference exports as
the empty text, any other as the text the serialiser gives. -/
def exportToWkt (env : Env) (s : OGRSpatialReference) : String :=
  if s = OGRSpatialReference.empty then "" else env.wkt s

/-! ## The stream -/

/-- The file handle `fp` seen through `FileDataSource`, instrumented with the
number of seeks and of record decodes performed on it. -/
structure FileDataSource where
  pos : Int
  seeks : Nat
  decodes : Nat
  deriving DecidableEq, Repr

/-! ## GRIBRasterBand -/

/-- A `GRIBRasterBand`, with the members of its base classes that the driver
uses. -/
structure GRIBRasterBand where
  nBand : Int
  start : Int
  subgNum : Int
  longFstLevel : Option String
  m_Grib_Data : Option (List ℚ)
  m_Grib_MetaData : Option grib_MetaData
  nBlockXSize : Int
  nBlockYSize : Int
  nRasterXSize : Int
  nRasterYSize : Int
  deriving DecidableEq, Repr

/-- A `GRIBDataset`, with the members of its base classes that the driver
uses; `papoBands` is the band array filled by `SetBand`. -/
structure GRIBDataset where
  fp : FileDataSource
  pszProjection : String
  adfGeoTransform : List ℚ
  nRasterXSize : Int
  nRasterYSize : Int
  papoBands : List (Option GRIBRasterBand)
  pszDescription : String
  deriving DecidableEq, Repr

/-- The constructor `GRIBRasterBand::GRIBRasterBand`.  The raster size members of the band
belong to the base class and are filled in by `SetBand`. -/
def GRIBRasterBand.new (env : Env) (poDS : GRIBDataset) (nBand : Int) (start : Int)
    (subgNum : Int) (longFstLevel : Option String) : GRIBRasterBand :=
  { nBand := nBand
    start := start
    subgNum := subgNum
    longFstLevel := env.CPLStrdup longFstLevel
    m_Grib_Data := none
    m_Grib_MetaData := none
    nBlockXSize := poDS.nRasterXSize
    nBlockYSize := 1
    nRasterXSize := 0
    nRasterYSize := 0 }

/-- The method `GRIBRasterBand::GetDescription`. -/
def GRIBRasterBand.GetDescription (env : Env) (b : GRIBRasterBand) : String :=
  match b.longFstLevel with
  | none => env.PamDescription b.nBand
  | some s => s

/-- The function `GRIBRasterBand::ReadGribData`: seek to `start`, then decode one record.
Returns the stream, `*data` and `*metaData`. -/
def ReadGribData (env : Env) (fp : FileDataSource) (start : Int) (subgNum : Int) :
    FileDataSource × Option (List ℚ) × grib_MetaData :=
  let fp1 : FileDataSource := { fp with pos := start, seeks := fp.seeks + 1 }
  let r := env.ReadGrib2Record fp1.pos subgNum
  ({ fp1 with decodes := fp1.decodes + 1 }, r.1, r.2)

/-- The `memcpy` of `IReadBlock`: `n` samples starting at index `off` of the
buffer; `none` when the source range is not inside the buffer. -/
def memcpyRow (data : List ℚ) (off n : Int) : Option (List ℚ) :=
  if 0 ≤ off ∧ 0 ≤ n ∧ off + n ≤ data.length then
    some ((data.drop off.toNat).take n.toNat)
  else none

/-- The `int` expression `nRasterXSize * (nRasterYSize - nBlockYOff - 1)` of
`IReadBlock`, evaluated left to right inside the parentheses and then
multiplied; `none` when one of the three operations overflows. -/
def rowOffset (nRasterXSize nRasterYSize nBlockYOff : Int) : Option Int :=
  (checkedInt (nRasterYSize - nBlockYOff)).bind fun d =>
    (checkedInt (d - 1)).bind fun e => checkedInt (nRasterXSize * e)

/-- The `memcpy` statement of `IReadBlock` on the buffer `data`: the row offset
is computed, then `nRasterXSize` samples are copied from there. -/
def copyBlock (data : List ℚ) (nRasterXSize nRasterYSize nBlockYOff : Int) :
    Option (List ℚ) :=
  (rowOffset nRasterXSize nRasterYSize nBlockYOff).bind fun off =>
    memcpyRow data off nRasterXSize

/-- The method `GRIBRasterBand::IReadBlock`, on the band and the stream of its dataset:
the band and stream afterwards and the samples copied to `pImage`. -/
def IReadBlock (env : Env) (b : GRIBRasterBand) (fp : FileDataSource)
    (_nBlockXOff nBlockYOff : Int) : Option (GRIBRasterBand × FileDataSource × List ℚ) :=
  let st : GRIBRasterBand × FileDataSource :=
    match b.m_Grib_Data with
    | none =>
      let r := ReadGribData env fp b.start b.subgNum
      ({ b with m_Grib_Data := r.2.1, m_Grib_MetaData := some r.2.2 }, r.1)
    | some _ => (b, fp)
  match st.1.m_Grib_Data with
  | none => none
  | some data =>
    match copyBlock data b.nRasterXSize b.nRasterYSize nBlockYOff with
    | none => none
    | some row => some (st.1, st.2, row)

/-- A run of `IReadBlock` calls on one band, for the rows listed. -/
def readRows (env : Env) (b : GRIBRasterBand) (fp : FileDataSource) :
    List Int → Option (GRIBRasterBand × FileDataSource × List (List ℚ))
  | [] => some (b, fp, [])
  | r :: rs =>
    match IReadBlock env b fp 0 r with
    | none => none
    | some (b1, fp1, row) =>
      match readRows env b1 fp1 rs with
      | none => none
      | some (b2, fp2, rows) => some (b2, fp2, row :: rows)

/-! ## GRIBDataset -/

/-- The constructor `GRIBDataset::GRIBDataset`; `fp` is the handle that `Open`
assigns right after construction. -/
def GRIBDataset.new (env : Env) (fp : FileDataSource) : GRIBDataset :=
  { fp := fp
    pszProjection := ""
    adfGeoTransform := [0, 1, 0, 0, 0, 1]
    nRasterXSize := env.initialRasterSize.1
    nRasterYSize := env.initialRasterSize.2
    papoBands := []
    pszDescription := "" }

/-- The method `GRIBDataset::GetGeoTransform`. -/
def GRIBDataset.GetGeoTransform (poDS : GRIBDataset) : List ℚ := poDS.adfGeoTransform

/-- The method `GRIBDataset::GetProjectionRef`. -/
def GRIBDataset.GetProjectionRef (poDS : GRIBDataset) : String := poDS.pszProjection

/-- Modelled from the spec: `GDALDataset::SetBand` (generic raster container,
not part of gribdataset.cpp).  Installs the band as band number `nNewBand` of
the dataset, growing the band array when needed, and hands the band its number
and the raster size of the dataset ("all bands share the dataset's" geometry). -/
def SetBand (poDS : GRIBDataset) (nNewBand : Nat) (poBand : GRIBRasterBand) : GRIBDataset :=
  let grown := poDS.papoBands ++ List.replicate (nNewBand - poDS.papoBands.length) none
  { poDS with
    papoBands := grown.set (nNewBand - 1)
      (some { poBand with
        nBand := nNewBand
        nRasterXSize := poDS.nRasterXSize
        nRasterYSize := poDS.nRasterYSize }) }

/-- The `switch (meta->gds.projType)` of `SetGribMetaData`, on a fresh `oSRS`. -/
def setProjection (gds : gdsType) : OGRSpatialReference :=
  let oSRS := OGRSpatialReference.empty
  match gds.projType with
  | .GS3_LATLON => oSRS
  | .GS3_GAUSSIAN_LATLON => oSRS
  | .GS3_MERCATOR => oSRS.SetMercator gds.meshLat gds.orientLon 1 0 0
  | .GS3_POLAR => oSRS.SetPS gds.meshLat gds.orientLon gds.scaleLat1 0 0
  | .GS3_LAMBERT => oSRS.SetLCC gds.scaleLat1 gds.scaleLat2 0 gds.orientLon 0 0
  | .GS3_ORTHOGRAPHIC => oSRS.SetGEOS 0 35785831 0 0
  | .GS3_EQUATOR_EQUIDIST => oSRS
  | .GS3_AZIMUTH_RANGE => oSRS
  | .other _ => oSRS

/-- The radii `a`, `b` in metres, after the substitution made when both are zero. -/
def earthRadii (gds : gdsType) : ℚ × ℚ :=
  let a := gds.majEarth * 1000
  let b := gds.minEarth * 1000
  if a = 0 ∧ b = 0 then (6377563.396, 6356256.910) else (a, b)

/-- The `SetGeogCS` call of `SetGribMetaData`. -/
def setGeogCS (gds : gdsType) (oSRS : OGRSpatialReference) : OGRSpatialReference :=
  let a := (earthRadii gds).1
  let b := (earthRadii gds).2
  if gds.f_sphere then
    oSRS.SetGeogCS "Coordinate System imported from GRIB file" none "Sphere" a (.finite 0)
  else
    let fInv := doubleDiv a (a - b)
    oSRS.SetGeogCS "Coordinate System imported from GRIB file" none
      "Spheroid imported from GRIB file" a fInv

/-- The local variables of `SetGribMetaData` after its three-way branch. -/
structure GeoRef where
  rMinX : ℚ
  rMaxY : ℚ
  rPixelSizeX : ℚ
  rPixelSizeY : ℚ
  oSRS : OGRSpatialReference
  deriving DecidableEq, Repr

/-- The `else` branch taken when the coordinate transformation is missing or
reports failure. -/
def georefFallback (oSRS : OGRSpatialReference) : GeoRef :=
  { rMinX := 0, rMaxY := 0, rPixelSizeX := 1, rPixelSizeY := -1, oSRS := oSRS.Clear }

/-- The three-way branch of `SetGribMetaData` that computes the origin and the
pixel size. -/
def georeference (env : Env) (gds : gdsType) (oSRS oLL : OGRSpatialReference) : GeoRef :=
  if gds.projType = .GS3_ORTHOGRAPHIC then
    let geosExtentInMeters : ℚ := 11137496.552
    { rMinX := -(geosExtentInMeters / 2)
      rMaxY := geosExtentInMeters / 2
      rPixelSizeX := geosExtentInMeters / (gds.Nx : ℚ)
      rPixelSizeY := geosExtentInMeters / (gds.Ny : ℚ)
      oSRS := oSRS }
  else if oSRS.IsProjected then
    match env.OGRCreateCoordinateTransformation oLL oSRS with
    | none => georefFallback oSRS
    | some poTransformLLtoSRS =>
      let r := poTransformLLtoSRS gds.lon1 gds.lat1
      if r.1 then
        { rMinX := r.2.1
          rMaxY := if gds.scan = GRIB2BIT_2 then r.2.2 + ((gds.Ny - 1 : Int) : ℚ) * gds.Dy else r.2.2
          rPixelSizeX := gds.Dx
          rPixelSizeY := gds.Dy
          oSRS := oSRS }
      else georefFallback oSRS
  else
    { rMinX := gds.lon1
      rMaxY := if gds.scan = GRIB2BIT_2 then gds.lat1 + ((gds.Ny - 1 : Int) : ℚ) * gds.Dy else gds.lat1
      rPixelSizeX := gds.Dx
      rPixelSizeY := gds.Dy
      oSRS := oSRS }

/-- The method `GRIBDataset::SetGribMetaData`. -/
def SetGribMetaData (env : Env) (poDS : GRIBDataset) (meta : grib_MetaData) : GRIBDataset :=
  let oSRS := setGeogCS meta.gds (setProjection meta.gds)
  let oLL := OGRSpatialReference.empty.CopyGeogCSFrom oSRS
  let g := georeference env meta.gds oSRS oLL
  { poDS with
    nRasterXSize := toInt32 meta.gds.Nx
    nRasterYSize := toInt32 meta.gds.Ny
    adfGeoTransform :=
      (((poDS.adfGeoTransform.set 0 g.rMinX).set 3 g.rMaxY).set 1 g.rPixelSizeX).set 5
        (-g.rPixelSizeY)
    pszProjection := exportToWkt env g.oSRS }

/-- The part of `GDALOpenInfo` that `Open` reads: the file handle (null when the
file could not be opened) and the file name. -/
structure GDALOpenInfo where
  fp : Option FileDataSource
  pszFilename : String
  deriving DecidableEq, Repr

/-- The band creation loop of `Open`, from index `i` on, over the inventory
entries that remain. -/
def OpenLoop (env : Env) (poDS : GRIBDataset) : Nat → List inventoryType → Option GRIBDataset
  | _, [] => some poDS
  | i, inv :: rest =>
    let bandNr := i + 1
    if bandNr = 1 then
      let r := ReadGribData env poDS.fp 0 inv.subgNum
      let data := r.2.1
      let metaData := r.2.2
      if metaData.gds.Nx < 1 ∨ metaData.gds.Ny < 1 then none
      else
        let poDS1 := SetGribMetaData env { poDS with fp := r.1 } metaData
        let gribBand := GRIBRasterBand.new env poDS1 bandNr inv.start inv.subgNum inv.longFstLevel
        let gribBand := { gribBand with m_Grib_Data := data, m_Grib_MetaData := some metaData }
        OpenLoop env (SetBand poDS1 bandNr gribBand) (i + 1) rest
    else
      OpenLoop env
        (SetBand poDS bandNr
          (GRIBRasterBand.new env poDS bandNr inv.start inv.subgNum inv.longFstLevel))
        (i + 1) rest

/-- The function `GRIBDataset::Open`; `none` is the null return. -/
def Open (env : Env) (poOpenInfo : GDALOpenInfo) : Option GRIBDataset :=
  match poOpenInfo.fp with
  | none => none
  | some fp =>
    if env.ReadSECT0 < 0 then none
    else
      let poDS := GRIBDataset.new env { fp with pos := 0, seeks := fp.seeks + 1 }
      if env.GRIB2Inventory.1 ≤ 0 then none
      else
        match OpenLoop env poDS 0 env.GRIB2Inventory.2 with
        | none => none
        | some ds => some { ds with pszDescription := poOpenInfo.pszFilename }

/-- Modelled from the spec: the contract of `GRIB2Inventory` (degrib, not part of
gribdataset.cpp) that section 4.1 states: the scan "fails ... when zero records
are produced", that is, its return value is not positive when the inventory it
built is empty. -/
def scanContract (r : Int × List inventoryType) : Bool :=
  !r.2.isEmpty || decide (r.1 ≤ 0)

/-- The grid that a band serves: its cached buffer or, while it has none, the
buffer that decoding its own record (offset `start`, sub-grid `subgNum`) gives. -/
def GRIBRasterBand.decodedGrid (env : Env) (b : GRIBRasterBand) : Option (List ℚ) :=
  match b.m_Grib_Data with
  | some d => some d
  | none => (env.ReadGrib2Record b.start b.subgNum).1

/-- The spatial reference `oSRS` that `SetGribMetaData` has built when it reaches
its three-way branch. -/
def builtSRS (gds : gdsType) : OGRSpatialReference :=
  setGeogCS gds (setProjection gds)

/-- Whether the coordinate transformation of `SetGribMetaData` is unavailable
(null) or reports failure on the first point of the grid. -/
def transformFails (env : Env) (gds : gdsType) : Bool :=
  match env.OGRCreateCoordinateTransformation
      (OGRSpatialReference.empty.CopyGeogCSFrom (builtSRS gds)) (builtSRS gds) with
  | none => true
  | some poTransformLLtoSRS => !(poTransformLLtoSRS gds.lon1 gds.lat1).1

/-! ## Sample data -/

/-- A four by three geographic grid definition, rows running south to north. -/
def sampleGds : gdsType :=
  { projType := .GS3_LATLON, Nx := 4, Ny := 3, Dx := 1, Dy := 1, lon1 := 10, lat1 := 50
    majEarth := 6371, minEarth := 6371, f_sphere := true, scan := 64
    meshLat := 0, orientLon := 0, scaleLat1 := 0, scaleLat2 := 0 }

/-- A stream of two messages on the sample grid, at offsets 0 and 100. -/
def sampleEnv : Env :=
  { ReadSECT0 := 0
    GRIB2Inventory := (2, [⟨0, 0, some "2-HTGL"⟩, ⟨100, 0, some ""⟩])
    ReadGrib2Record := fun start _ =>
      (some (if start = 0 then [1, 2, 3, 4, 5, 6, 7, 8, 9, 10, 11, 12]
             else [21, 22, 23, 24, 25, 26, 27, 28, 29, 30, 31, 32]), ⟨sampleGds⟩)
    OGRCreateCoordinateTransformation := fun _ _ => none
    wkt := fun _ => "GEOGCS"
    CPLStrdup := fun s => some (s.getD "")
    PamDescription := fun _ => "default"
    initialRasterSize := (512, 512) }

/-- An open request on a readable file. -/
def sampleInfo : GDALOpenInfo := { fp := some ⟨0, 0, 0⟩, pszFilename := "sample.grb" }

/-- A Mercator grid definition. -/
def mercatorGds : gdsType :=
  { projType := .GS3_MERCATOR, Nx := 2, Ny := 2, Dx := 1000, Dy := 1000, lon1 := 5, lat1 := 40
    majEarth := 6371, minEarth := 6371, f_sphere := true, scan := 64
    meshLat := 20, orientLon := 0, scaleLat1 := 0, scaleLat2 := 0 }

/-- A stream of one Mercator message, with no coordinate transformation at hand. -/
def mercatorEnv : Env :=
  { ReadSECT0 := 0
    GRIB2Inventory := (1, [⟨0, 0, some "0-SFC"⟩])
    ReadGrib2Record := fun _ _ => (some [1, 2, 3, 4], ⟨mercatorGds⟩)
    OGRCreateCoordinateTransformation := fun _ _ => none
    wkt := fun _ => "PROJCS"
    CPLStrdup := fun s => some (s.getD "")
    PamDescription := fun _ => ""
    initialRasterSize := (512, 512) }

/-- A polar stereographic grid definition whose `meshLat` and `scaleLat1` differ. -/
def polarGds : gdsType :=
  { projType := .GS3_POLAR, Nx := 2, Ny := 2, Dx := 1000, Dy := 1000, lon1 := 5, lat1 := 40
    majEarth := 6371, minEarth := 6371, f_sphere := true, scan := 64
    meshLat := 60, orientLon := -105, scaleLat1 := 90, scaleLat2 := 90 }

/-- A geographic grid definition on an ellipsoid, with both radii left at zero. -/
def zeroRadiiGds : gdsType :=
  { projType := .GS3_LATLON, Nx := 2, Ny := 2, Dx := 1, Dy := 1, lon1 := 0, lat1 := 0
    majEarth := 0, minEarth := 0, f_sphere := false, scan := 64
    meshLat := 0, orientLon := 0, scaleLat1 := 0, scaleLat2 := 0 }

/-- A geographic grid definition of one row whose width does not fit a 32-bit
`int`. -/
def wideGds : gdsType := { sampleGds with Nx := 4294967295, Ny := 1 }

/-- A stream of one message on the wide grid. -/
def wideEnv : Env :=
  { sampleEnv with
    GRIB2Inventory := (1, [⟨0, 0, some "0-SFC"⟩])
    ReadGrib2Record := fun _ _ => (some (List.replicate 4294967295 0), ⟨wideGds⟩) }

/-- A band of 50000 by 50000 samples that holds its decoded grid. -/
def hugeBand : GRIBRasterBand :=
  { nBand := 1, start := 0, subgNum := 0, longFstLevel := some "0-SFC"
    m_Grib_Data := some (List.replicate 2500000000 0)
    m_Grib_MetaData := none
    nBlockXSize := 50000, nBlockYSize := 1, nRasterXSize := 50000, nRasterYSize := 50000 }

/-- A geographic grid definition on an ellipsoid whose two radii are equal. -/
def equalRadiiGds : gdsType :=
  { projType := .GS3_LATLON, Nx := 2, Ny := 2, Dx := 1, Dy := 1, lon1 := 0, lat1 := 0
    majEarth := 6371, minEarth := 6371, f_sphere := false, scan := 64
    meshLat := 0, orientLon := 0, scaleLat1 := 0, scaleLat2 := 0 }

/-- The first band of the sample dataset, holding the grid decoded at open. -/
def sampleBand1 : GRIBRasterBand :=
  { nBand := 1, start := 0, subgNum := 0, longFstLevel := some "2-HTGL"
    m_Grib_Data := some [1, 2, 3, 4, 5, 6, 7, 8, 9, 10, 11, 12]
    m_Grib_MetaData := some ⟨sampleGds⟩
    nBlockXSize := 4, nBlockYSize := 1, nRasterXSize := 4, nRasterYSize := 3 }

/-- The second band of the sample dataset, not decoded yet. -/
def sampleBand2 : GRIBRasterBand :=
  { nBand := 2, start := 100, subgNum := 0, longFstLevel := some ""
    m_Grib_Data := none
    m_Grib_MetaData := none
    nBlockXSize := 4, nBlockYSize := 1, nRasterXSize := 4, nRasterYSize := 3 }

/-- The dataset that `Open` returns on the sample stream. -/
def sampleDataset : GRIBDataset :=
  { fp := ⟨0, 2, 1⟩, pszProjection := "GEOGCS", adfGeoTransform := [10, 1, 0, 52, 0, -1]
    nRasterXSize := 4, nRasterYSize := 3
    papoBands := [some sampleBand1, some sampleBand2]
    pszDescription := "sample.grb" }

/-- The sample grid definition with a scan byte that has the bit of value 64 set
together with the bit of value 128. -/
def flagsGds : gdsType := { sampleGds with scan := 192 }

/-- A stream of one Mercator message with a coordinate transformation that
succeeds, scaling both coordinates by 1000. -/
def projectedEnv : Env :=
  { mercatorEnv with
    OGRCreateCoordinateTransformation := fun _ _ => some fun x y => (true, x * 1000, y * 1000) }

/-- The first grid point in the coordinate system of the dataset: `(lon1, lat1)`
itself when `oSRS` is not projected, and the point that the coordinate
transformation makes of it when `oSRS` is projected and the transformation
exists and succeeds; `none` when it is missing or reports failure. -/
def firstPoint (env : Env) (gds : gdsType) : Option (ℚ × ℚ) :=
  if (builtSRS gds).IsProjected then
    match env.OGRCreateCoordinateTransformation
        (OGRSpatialReference.empty.CopyGeogCSFrom (builtSRS gds)) (builtSRS gds) with
    | none => none
    | some poTransformLLtoSRS =>
      if (poTransformLLtoSRS gds.lon1 gds.lat1).1 then
        some (poTransformLLtoSRS gds.lon1 gds.lat1).2
      else none
  else some (gds.lon1, gds.lat1)

/-! ## Auxiliary facts about the band array and the loop of `Open` -/

theorem SetBand_papoBands (poDS : GRIBDataset) (i : Nat) (b : GRIBRasterBand)
    (h : poDS.papoBands.length = i) :
    (SetBand poDS (i + 1) b).papoBands =
      poDS.papoBands ++ [some { b with
        nBand := ((i + 1 : Nat) : Int)
        nRasterXSize := poDS.nRasterXSize
        nRasterYSize := poDS.nRasterYSize }] := by
  unfold SetBand
  simp only [h, Nat.add_sub_cancel_left, Nat.add_sub_cancel]
  have h1 : List.replicate 1 (none : Option GRIBRasterBand) = [none] := rfl
  rw [h1, List.set_append_right _ _ (by omega)]
  simp [h]

theorem SetBand_nRasterXSize (poDS : GRIBDataset) (n : Nat) (b : GRIBRasterBand) :
    (SetBand poDS n b).nRasterXSize = poDS.nRasterXSize := rfl

theorem SetBand_nRasterYSize (poDS : GRIBDataset) (n : Nat) (b : GRIBRasterBand) :
    (SetBand poDS n b).nRasterYSize = poDS.nRasterYSize := rfl

theorem SetBand_adfGeoTransform (poDS : GRIBDataset) (n : Nat) (b : GRIBRasterBand) :
    (SetBand poDS n b).adfGeoTransform = poDS.adfGeoTransform := rfl

theorem SetBand_pszProjection (poDS : GRIBDataset) (n : Nat) (b : GRIBRasterBand) :
    (SetBand poDS n b).pszProjection = poDS.pszProjection := rfl

theorem SetBand_fp (poDS : GRIBDataset) (n : Nat) (b : GRIBRasterBand) :
    (SetBand poDS n b).fp = poDS.fp := rfl

/-- One step of the loop for a band other than the first. -/
theorem OpenLoop_succ_cons (env : Env) (poDS : GRIBDataset) (i : Nat) (inv : inventoryType)
    (rest : List inventoryType) :
    OpenLoop env poDS (i + 1) (inv :: rest) =
      OpenLoop env
        (SetBand poDS (i + 1 + 1)
          (GRIBRasterBand.new env poDS ((i + 1 + 1 : Nat) : Int) inv.start inv.subgNum
            inv.longFstLevel))
        (i + 1 + 1) rest := by
  simp [OpenLoop]

/-- The first step of the loop. -/
theorem OpenLoop_zero_cons (env : Env) (poDS : GRIBDataset) (inv : inventoryType)
    (rest : List inventoryType) :
    OpenLoop env poDS 0 (inv :: rest) =
      if (ReadGribData env poDS.fp 0 inv.subgNum).2.2.gds.Nx < 1 ∨
          (ReadGribData env poDS.fp 0 inv.subgNum).2.2.gds.Ny < 1 then none
      else
        OpenLoop env
          (SetBand
            (SetGribMetaData env { poDS with fp := (ReadGribData env poDS.fp 0 inv.subgNum).1 }
              (ReadGribData env poDS.fp 0 inv.subgNum).2.2)
            1
            { GRIBRasterBand.new env
                (SetGribMetaData env
                  { poDS with fp := (ReadGribData env poDS.fp 0 inv.subgNum).1 }
                  (ReadGribData env poDS.fp 0 inv.subgNum).2.2)
                ((1 : Nat) : Int) inv.start inv.subgNum inv.longFstLevel with
              m_Grib_Data := (ReadGribData env poDS.fp 0 inv.subgNum).2.1
              m_Grib_MetaData := some (ReadGribData env poDS.fp 0 inv.subgNum).2.2 })
          1 rest := by
  simp [OpenLoop]

/-- After the first band the loop cannot fail and leaves everything but the
band array as it is. -/
theorem OpenLoop_succ_fields (env : Env) (rest : List inventoryType) :
    ∀ (i : Nat) (poDS : GRIBDataset), ∃ ds, OpenLoop env poDS (i + 1) rest = some ds ∧
      ds.nRasterXSize = poDS.nRasterXSize ∧ ds.nRasterYSize = poDS.nRasterYSize ∧
      ds.adfGeoTransform = poDS.adfGeoTransform ∧ ds.pszProjection = poDS.pszProjection ∧
      ds.fp = poDS.fp := by
  induction rest with
  | nil => intro i poDS; exact ⟨poDS, by simp [OpenLoop]⟩
  | cons inv rest ih =>
    intro i poDS
    rw [OpenLoop_succ_cons]
    obtain ⟨ds, h, h1, h2, h3, h4, h5⟩ := ih (i + 1) (SetBand poDS (i + 1 + 1)
      (GRIBRasterBand.new env poDS ((i + 1 + 1 : Nat) : Int) inv.start inv.subgNum
        inv.longFstLevel))
    exact ⟨ds, h, h1, h2, h3, h4, h5⟩

/-- What the loop of `Open` leaves in the band array: the bands already there
are kept, and entry `j` of the remaining inventory becomes band `i + j + 1`. -/
theorem OpenLoop_bands (env : Env) (Inv : List inventoryType) :
    ∀ (i : Nat) (poDS ds : GRIBDataset), poDS.papoBands.length = i →
      OpenLoop env poDS i Inv = some ds →
      ds.papoBands.length = i + Inv.length ∧
      (∀ j, j < i → ds.papoBands[j]? = poDS.papoBands[j]?) ∧
      ∀ j inv, Inv[j]? = some inv → ∃ b, ds.papoBands[i + j]? = some (some b) ∧
        b.nBand = ((i + j + 1 : Nat) : Int) ∧ b.start = inv.start ∧
        b.subgNum = inv.subgNum ∧ b.longFstLevel = env.CPLStrdup inv.longFstLevel ∧
        b.nRasterXSize = ds.nRasterXSize ∧ b.nRasterYSize = ds.nRasterYSize ∧
        (0 < i + j → b.m_Grib_Data = none) := by
  induction Inv with
  | nil =>
    intro i poDS ds hlen h
    simp only [OpenLoop, Option.some.injEq] at h
    subst h
    refine ⟨by simpa using hlen, fun _ _ => rfl, ?_⟩
    intro j inv hj
    simp at hj
  | cons inv0 rest ih =>
    intro i poDS ds hlen h
    -- the common shape of both branches of the loop body
    have key : ∀ (P : GRIBDataset) (B : GRIBRasterBand),
        OpenLoop env (SetBand P (i + 1) B) (i + 1) rest = some ds →
        P.papoBands = poDS.papoBands →
        B.start = inv0.start → B.subgNum = inv0.subgNum →
        B.longFstLevel = env.CPLStrdup inv0.longFstLevel →
        (0 < i → B.m_Grib_Data = none) →
        ds.papoBands.length = i + (inv0 :: rest).length ∧
        (∀ j, j < i → ds.papoBands[j]? = poDS.papoBands[j]?) ∧
        ∀ j inv, (inv0 :: rest)[j]? = some inv → ∃ b, ds.papoBands[i + j]? = some (some b) ∧
          b.nBand = ((i + j + 1 : Nat) : Int) ∧ b.start = inv.start ∧
          b.subgNum = inv.subgNum ∧ b.longFstLevel = env.CPLStrdup inv.longFstLevel ∧
          b.nRasterXSize = ds.nRasterXSize ∧ b.nRasterYSize = ds.nRasterYSize ∧
          (0 < i + j → b.m_Grib_Data = none) := by
      intro P B hloop hP hs hg hl hd
      have hPlen : P.papoBands.length = i := by rw [hP]; exact hlen
      have hset := SetBand_papoBands P i B hPlen
      have hlen1 : (SetBand P (i + 1) B).papoBands.length = i + 1 := by
        rw [hset]; simp [hPlen]
      obtain ⟨h1, h2, h3⟩ := ih (i + 1) _ ds hlen1 hloop
      obtain ⟨ds1, hds1, hx, hy, -, -, -⟩ := OpenLoop_succ_fields env rest i (SetBand P (i + 1) B)
      rw [hloop] at hds1
      have hds : ds = ds1 := by simpa using hds1
      subst hds
      refine ⟨by simp [h1]; omega, ?_, ?_⟩
      · intro j hj
        rw [h2 j (by omega), hset, ← hP, List.getElem?_append_left (by omega)]
      · intro j inv hj
        cases j with
        | zero =>
          simp only [List.getElem?_cons_zero, Option.some.injEq] at hj
          subst hj
          refine ⟨{ B with
            nBand := ((i + 1 : Nat) : Int)
            nRasterXSize := P.nRasterXSize
            nRasterYSize := P.nRasterYSize }, ?_, rfl, hs, hg, hl, ?_, ?_, ?_⟩
          · rw [Nat.add_zero, h2 i (by omega), hset,
              List.getElem?_append_right (by omega)]
            simp [hPlen]
          · simp [hx, SetBand_nRasterXSize]
          · simp [hy, SetBand_nRasterYSize]
          · intro hi; exact hd (by simpa using hi)
        | succ j =>
          simp only [List.getElem?_cons_succ] at hj
          obtain ⟨b, hb, hn, r1, r2, r3, r4, r5, r6⟩ := h3 j inv hj
          have e : i + (j + 1) = i + 1 + j := by omega
          rw [e]
          exact ⟨b, hb, hn, r1, r2, r3, r4, r5, fun _ => r6 (by omega)⟩
    cases i with
    | zero =>
      rw [OpenLoop_zero_cons] at h
      split at h
      · exact absurd h (by simp)
      · exact key _ _ h rfl rfl rfl rfl (fun hi => absurd hi (by omega))
    | succ i =>
      rw [OpenLoop_succ_cons] at h
      exact key _ _ h rfl rfl rfl rfl (fun _ => rfl)

theorem ReadGribData_meta (env : Env) (fp : FileDataSource) (start subgNum : Int) :
    (ReadGribData env fp start subgNum).2.2 = (env.ReadGrib2Record start subgNum).2 := rfl

theorem ReadGribData_data (env : Env) (fp : FileDataSource) (start subgNum : Int) :
    (ReadGribData env fp start subgNum).2.1 = (env.ReadGrib2Record start subgNum).1 := rfl

theorem ReadGribData_fp (env : Env) (fp : FileDataSource) (start subgNum : Int) :
    (ReadGribData env fp start subgNum).1 =
      { pos := start, seeks := fp.seeks + 1, decodes := fp.decodes + 1 } := rfl

/-- What a successful `Open` went through. -/
theorem Open_some (env : Env) (info : GDALOpenInfo) (ds : GRIBDataset)
    (h : Open env info = some ds) :
    ∃ fp ds0, info.fp = some fp ∧ 0 ≤ env.ReadSECT0 ∧ 0 < env.GRIB2Inventory.1 ∧
      OpenLoop env (GRIBDataset.new env { fp with pos := 0, seeks := fp.seeks + 1 }) 0
        env.GRIB2Inventory.2 = some ds0 ∧
      ds = { ds0 with pszDescription := info.pszFilename } := by
  unfold Open at h
  split at h
  · exact absurd h (by simp)
  · rename_i fp hfp
    split at h
    · exact absurd h (by simp)
    · rename_i hs
      simp only at h
      split at h
      · exact absurd h (by simp)
      · rename_i hr
        split at h
        · exact absurd h (by simp)
        · rename_i ds0 hl
          refine ⟨fp, ds0, hfp, by omega, by omega, hl, ?_⟩
          simpa using h.symm

/-- When the probes pass, `Open` returns whatever the band loop returns, with
the description set. -/
theorem Open_of_probes (env : Env) (info : GDALOpenInfo) (fp : FileDataSource)
    (hfp : info.fp = some fp) (hs : 0 ≤ env.ReadSECT0) (hr : 0 < env.GRIB2Inventory.1) :
    Open env info =
      (OpenLoop env (GRIBDataset.new env { fp with pos := 0, seeks := fp.seeks + 1 }) 0
        env.GRIB2Inventory.2).map fun ds0 => { ds0 with pszDescription := info.pszFilename } := by
  unfold Open
  rw [hfp]
  simp only [not_lt.mpr hs, not_le.mpr hr, if_false]
  cases OpenLoop env (GRIBDataset.new env { fp with pos := 0, seeks := fp.seeks + 1 }) 0
    env.GRIB2Inventory.2 <;> rfl

/-- The first pass of the loop: it fails exactly on a first grid with a
dimension below one, and otherwise the geometry of the result is the one that
`SetGribMetaData` derives from the first decode. -/
theorem OpenLoop_zero_geometry (env : Env) (poDS : GRIBDataset) (inv : inventoryType)
    (rest : List inventoryType) :
    ((env.ReadGrib2Record 0 inv.subgNum).2.gds.Nx < 1 ∨
        (env.ReadGrib2Record 0 inv.subgNum).2.gds.Ny < 1 →
      OpenLoop env poDS 0 (inv :: rest) = none) ∧
    (¬ ((env.ReadGrib2Record 0 inv.subgNum).2.gds.Nx < 1 ∨
        (env.ReadGrib2Record 0 inv.subgNum).2.gds.Ny < 1) →
      ∃ ds, OpenLoop env poDS 0 (inv :: rest) = some ds ∧
        ds.nRasterXSize = toInt32 (env.ReadGrib2Record 0 inv.subgNum).2.gds.Nx ∧
        ds.nRasterYSize = toInt32 (env.ReadGrib2Record 0 inv.subgNum).2.gds.Ny ∧
        ds.adfGeoTransform =
          (SetGribMetaData env poDS (env.ReadGrib2Record 0 inv.subgNum).2).adfGeoTransform ∧
        ds.pszProjection =
          (SetGribMetaData env poDS (env.ReadGrib2Record 0 inv.subgNum).2).pszProjection ∧
        ds.fp = { pos := 0, seeks := poDS.fp.seeks + 1, decodes := poDS.fp.decodes + 1 }) := by
  rw [OpenLoop_zero_cons]
  simp only [ReadGribData_meta]
  constructor
  · intro h
    rw [if_pos h]
  · intro h
    rw [if_neg h]
    obtain ⟨ds, hds, h1, h2, h3, h4, h5⟩ := OpenLoop_succ_fields env rest 0
      (SetBand
        (SetGribMetaData env { poDS with fp := (ReadGribData env poDS.fp 0 inv.subgNum).1 }
          (env.ReadGrib2Record 0 inv.subgNum).2)
        1
        { GRIBRasterBand.new env
            (SetGribMetaData env
              { poDS with fp := (ReadGribData env poDS.fp 0 inv.subgNum).1 }
              (env.ReadGrib2Record 0 inv.subgNum).2)
            ((1 : Nat) : Int) inv.start inv.subgNum inv.longFstLevel with
          m_Grib_Data := (ReadGribData env poDS.fp 0 inv.subgNum).2.1
          m_Grib_MetaData := some (env.ReadGrib2Record 0 inv.subgNum).2 })
    exact ⟨ds, hds, h1, h2, h3, h4, h5⟩

/-- With the probes passed and a first grid of valid dimensions, `Open` returns a
dataset. -/
theorem Open_succeeds (env : Env) (info : GDALOpenInfo) (inv : inventoryType)
    (rest : List inventoryType) (hInv : env.GRIB2Inventory.2 = inv :: rest)
    (hx : 1 ≤ (env.ReadGrib2Record 0 inv.subgNum).2.gds.Nx)
    (hy : 1 ≤ (env.ReadGrib2Record 0 inv.subgNum).2.gds.Ny)
    (hfp : info.fp.isSome = true) (hs : 0 ≤ env.ReadSECT0) (hr : 0 < env.GRIB2Inventory.1) :
    ∃ ds, Open env info = some ds := by
  obtain ⟨fp, hfp1⟩ := Option.isSome_iff_exists.mp hfp
  obtain ⟨ds1, h1, -⟩ := (OpenLoop_zero_geometry env
    (GRIBDataset.new env { fp with pos := 0, seeks := fp.seeks + 1 }) inv rest).2 (by omega)
  rw [Open_of_probes env info fp hfp1 hs hr, hInv, h1]
  exact ⟨_, rfl⟩

/-! ## Properties of `Open` -/

/-- C1. Whenever `Open` returns a dataset, the dataset has exactly as many bands
as the inventory has records, and for every position `i` (from 0) the record at
position `i` of the inventory is carried by band number `i + 1`, installed at
position `i` of the band array: the band has the record's byte offset, its
sub-grid index and the `CPLStrdup` copy of its level label. -/
theorem Open_bands_follow_inventory (env : Env) (info : GDALOpenInfo) (ds : GRIBDataset)
    (h : Open env info = some ds) :
    ds.papoBands.length = env.GRIB2Inventory.2.length ∧
    ∀ (i : Nat) (inv : inventoryType), env.GRIB2Inventory.2[i]? = some inv →
      ∃ b, ds.papoBands[i]? = some (some b) ∧ b.nBand = ((i + 1 : Nat) : Int) ∧
        b.start = inv.start ∧ b.subgNum = inv.subgNum ∧
        b.longFstLevel = env.CPLStrdup inv.longFstLevel := by
  obtain ⟨fp, ds0, -, -, -, hloop, rfl⟩ := Open_some env info ds h
  obtain ⟨h1, -, h3⟩ := OpenLoop_bands env env.GRIB2Inventory.2 0
    (GRIBDataset.new env { fp with pos := 0, seeks := fp.seeks + 1 }) ds0 rfl hloop
  refine ⟨by simpa using h1, ?_⟩
  intro i inv hi
  obtain ⟨b, hb, hn, hs, hg, hl, -⟩ := h3 i inv hi
  exact ⟨b, by simpa using hb, by simpa using hn, hs, hg, hl⟩

/-- Witness of C1 on the sample stream of two messages. -/
theorem Open_bands_follow_inventory_witness :
    Open sampleEnv sampleInfo = some sampleDataset ∧
    sampleDataset.papoBands.length = sampleEnv.GRIB2Inventory.2.length ∧
    ∀ (i : Nat) (inv : inventoryType), sampleEnv.GRIB2Inventory.2[i]? = some inv →
      ∃ b, sampleDataset.papoBands[i]? = some (some b) ∧ b.nBand = ((i + 1 : Nat) : Int) ∧
        b.start = inv.start ∧ b.subgNum = inv.subgNum ∧
        b.longFstLevel = sampleEnv.CPLStrdup inv.longFstLevel :=
  ⟨by decide!, Open_bands_follow_inventory sampleEnv sampleInfo sampleDataset (by decide!)⟩

/-- A value that fits a 32-bit `int` is stored unchanged. -/
theorem toInt32_of_fits (n : Int) (h0 : 0 ≤ n) (h1 : n ≤ 2147483647) : toInt32 n = n := by
  unfold toInt32
  omega

/-- The raster size of an opened dataset is the 32-bit `int` conversion of the
dimensions of the first grid definition, which are both at least one. -/
theorem Open_raster_size_narrowed (env : Env) (info : GDALOpenInfo) (ds : GRIBDataset)
    (inv : inventoryType) (rest : List inventoryType)
    (hInv : env.GRIB2Inventory.2 = inv :: rest) (hopen : Open env info = some ds) :
    1 ≤ (env.ReadGrib2Record 0 inv.subgNum).2.gds.Nx ∧
    1 ≤ (env.ReadGrib2Record 0 inv.subgNum).2.gds.Ny ∧
    ds.nRasterXSize = toInt32 (env.ReadGrib2Record 0 inv.subgNum).2.gds.Nx ∧
    ds.nRasterYSize = toInt32 (env.ReadGrib2Record 0 inv.subgNum).2.gds.Ny := by
  obtain ⟨fp, ds0, -, -, -, hloop, rfl⟩ := Open_some env info ds hopen
  rw [hInv] at hloop
  by_cases hbad : (env.ReadGrib2Record 0 inv.subgNum).2.gds.Nx < 1 ∨
      (env.ReadGrib2Record 0 inv.subgNum).2.gds.Ny < 1
  · rw [(OpenLoop_zero_geometry env _ inv rest).1 hbad] at hloop
    exact absurd hloop (by simp)
  · obtain ⟨ds1, h1, hx, hy, -⟩ := (OpenLoop_zero_geometry env
      (GRIBDataset.new env { fp with pos := 0, seeks := fp.seeks + 1 }) inv rest).2 hbad
    rw [hloop] at h1
    have e : ds0 = ds1 := by simpa using h1
    subst e
    push_neg at hbad
    exact ⟨hbad.1, hbad.2, hx, hy⟩

/-- C2, counterexample. The first grid definition of the wide stream has
`Nx = 4294967295` and `Ny = 1`, both at least one.  `Open` returns a dataset,
and its raster width is `-1`, not `Nx`. -/
theorem Open_raster_size_counterexample :
    (wideEnv.ReadGrib2Record 0 0).2.gds.Nx = 4294967295 ∧
    (wideEnv.ReadGrib2Record 0 0).2.gds.Ny = 1 ∧
    ∃ ds, Open wideEnv sampleInfo = some ds ∧ ds.nRasterXSize = -1 ∧
      ds.nRasterXSize ≠ (wideEnv.ReadGrib2Record 0 0).2.gds.Nx := by
  refine ⟨rfl, rfl, ?_⟩
  obtain ⟨ds, hds⟩ := Open_succeeds wideEnv sampleInfo ⟨0, 0, some "0-SFC"⟩ [] rfl
    (by decide) (by decide) rfl (by decide) (by decide)
  obtain ⟨-, -, hx, -⟩ := Open_raster_size_narrowed wideEnv sampleInfo ds
    ⟨0, 0, some "0-SFC"⟩ [] rfl hds
  have hw : ds.nRasterXSize = -1 := by
    rw [hx]
    decide
  refine ⟨ds, hds, hw, ?_⟩
  rw [hw]
  decide

/-- C2, amended. Let the inventory start with the record `inv`, and let the first
grid definition be the one decoded by the first read of `Open` (offset 0,
sub-grid of `inv`).  If its `Nx` or its `Ny` is below one, `Open` returns no
dataset.  For every dataset that `Open` returns both are at least one, the
raster width is `Nx` when `Nx` fits a 32-bit `int` (at most 2147483647), and the
raster height is `Ny` when `Ny` does.  When both are at least one and the
probes pass (file handle present, header probe not negative, inventory return
positive) `Open` does return a dataset. -/
theorem Open_raster_size (env : Env) (info : GDALOpenInfo) (inv : inventoryType)
    (rest : List inventoryType) (hInv : env.GRIB2Inventory.2 = inv :: rest) :
    ((env.ReadGrib2Record 0 inv.subgNum).2.gds.Nx < 1 ∨
        (env.ReadGrib2Record 0 inv.subgNum).2.gds.Ny < 1 → Open env info = none) ∧
    (∀ ds, Open env info = some ds →
      1 ≤ (env.ReadGrib2Record 0 inv.subgNum).2.gds.Nx ∧
      1 ≤ (env.ReadGrib2Record 0 inv.subgNum).2.gds.Ny ∧
      ((env.ReadGrib2Record 0 inv.subgNum).2.gds.Nx ≤ 2147483647 →
        ds.nRasterXSize = (env.ReadGrib2Record 0 inv.subgNum).2.gds.Nx ∧
        1 ≤ ds.nRasterXSize) ∧
      ((env.ReadGrib2Record 0 inv.subgNum).2.gds.Ny ≤ 2147483647 →
        ds.nRasterYSize = (env.ReadGrib2Record 0 inv.subgNum).2.gds.Ny ∧
        1 ≤ ds.nRasterYSize)) ∧
    (1 ≤ (env.ReadGrib2Record 0 inv.subgNum).2.gds.Nx →
      1 ≤ (env.ReadGrib2Record 0 inv.subgNum).2.gds.Ny →
      info.fp.isSome = true → 0 ≤ env.ReadSECT0 → 0 < env.GRIB2Inventory.1 →
      ∃ ds, Open env info = some ds) := by
  refine ⟨?_, ?_, ?_⟩
  · intro hbad
    cases hopen : Open env info with
    | none => rfl
    | some ds =>
      obtain ⟨h1, h2, -⟩ := Open_raster_size_narrowed env info ds inv rest hInv hopen
      omega
  · intro ds hopen
    obtain ⟨h1, h2, hx, hy⟩ := Open_raster_size_narrowed env info ds inv rest hInv hopen
    refine ⟨h1, h2, ?_, ?_⟩
    · intro hfit
      rw [hx, toInt32_of_fits _ (by omega) hfit]
      exact ⟨rfl, h1⟩
    · intro hfit
      rw [hy, toInt32_of_fits _ (by omega) hfit]
      exact ⟨rfl, h2⟩
  · intro hx hy hfp hs hr
    exact Open_succeeds env info inv rest hInv hx hy hfp hs hr

/-- Witness of the amended C2 on the sample stream, whose first grid is four by
three. -/
theorem Open_raster_size_witness :
    sampleEnv.GRIB2Inventory.2 = ⟨0, 0, some "2-HTGL"⟩ :: [⟨100, 0, some ""⟩] ∧
    Open sampleEnv sampleInfo = some sampleDataset ∧
    sampleDataset.nRasterXSize = 4 ∧ sampleDataset.nRasterYSize = 3 :=
  ⟨rfl, by decide!,
    (((Open_raster_size sampleEnv sampleInfo ⟨0, 0, some "2-HTGL"⟩ [⟨100, 0, some ""⟩] rfl).2.1
      sampleDataset (by decide!)).2.2.1 (by decide)).1,
    (((Open_raster_size sampleEnv sampleInfo ⟨0, 0, some "2-HTGL"⟩ [⟨100, 0, some ""⟩] rfl).2.1
      sampleDataset (by decide!)).2.2.2 (by decide)).1⟩

/-! ## Properties of `IReadBlock` -/

theorem memcpyRow_inside (data : List ℚ) (off n : Nat) (h : off + n ≤ data.length) :
    memcpyRow data (off : Int) (n : Int) = some ((data.drop off).take n) := by
  unfold memcpyRow
  have h1 : (0 : Int) ≤ off ∧ (0 : Int) ≤ n ∧ (off : Int) + n ≤ data.length := by
    refine ⟨by omega, by omega, by omega⟩
  rw [if_pos h1]
  simp

theorem flipped_offset (nx ny r : Nat) (hr : r < ny) :
    (nx : Int) * ((ny : Int) - (r : Int) - 1) = ((nx * (ny - 1 - r) : Nat) : Int) := by
  have e : ((ny - 1 - r : Nat) : Int) = (ny : Int) - (r : Int) - 1 := by omega
  rw [Nat.cast_mul, e]

theorem flipped_row_inside (nx ny r : Nat) (hr : r < ny) :
    nx * (ny - 1 - r) + nx ≤ nx * ny := by
  have e : ny - 1 - r + 1 ≤ ny := by omega
  calc nx * (ny - 1 - r) + nx = nx * (ny - 1 - r + 1) := by ring
    _ ≤ nx * ny := Nat.mul_le_mul_left nx e

/-- The band and the stream that `IReadBlock` leaves behind. -/
theorem IReadBlock_state (env : Env) (b b1 : GRIBRasterBand) (fp fp1 : FileDataSource)
    (x r : Int) (row : List ℚ) (h : IReadBlock env b fp x r = some (b1, fp1, row)) :
    (∀ d, b.m_Grib_Data = some d → b1 = b ∧ fp1 = fp) ∧
    (b.m_Grib_Data = none →
      fp1 = { pos := b.start, seeks := fp.seeks + 1, decodes := fp.decodes + 1 }) ∧
    b1.m_Grib_Data = b.decodedGrid env ∧ b1.m_Grib_Data.isSome = true ∧
    b1.nRasterXSize = b.nRasterXSize ∧ b1.nRasterYSize = b.nRasterYSize ∧
    copyBlock (b1.m_Grib_Data.getD []) b.nRasterXSize b.nRasterYSize r = some row := by
  unfold IReadBlock at h
  cases hd : b.m_Grib_Data with
  | none =>
    simp only [hd] at h
    split at h
    · exact absurd h (by simp)
    · rename_i data hdata
      split at h
      · exact absurd h (by simp)
      · rename_i row1 hrow
        simp only [Option.some.injEq, Prod.mk.injEq] at h
        obtain ⟨rfl, rfl, rfl⟩ := h
        refine ⟨by simp, fun _ => rfl, ?_, by simp [hdata], rfl, rfl, ?_⟩
        · simp [GRIBRasterBand.decodedGrid, hd, ReadGribData]
        · simp only [hdata, Option.getD_some]; exact hrow
  | some d =>
    simp only [hd] at h
    split at h
    · exact absurd h (by simp)
    · rename_i row1 hrow
      simp only [Option.some.injEq, Prod.mk.injEq] at h
      obtain ⟨rfl, rfl, rfl⟩ := h
      refine ⟨fun _ _ => ⟨rfl, rfl⟩, fun hn => absurd hn (by simp), ?_, by simp [hd], rfl, rfl, ?_⟩
      · simp [GRIBRasterBand.decodedGrid, hd]
      · simp only [hd, Option.getD_some]; exact hrow

/-- When the grid of the band is available and the source range of the copy is
inside it, `IReadBlock` succeeds. -/
theorem IReadBlock_of_grid (env : Env) (b : GRIBRasterBand) (fp : FileDataSource) (x r : Int)
    (data row : List ℚ) (hgrid : b.decodedGrid env = some data)
    (hrow : copyBlock data b.nRasterXSize b.nRasterYSize r = some row) :
    ∃ b1 fp1, IReadBlock env b fp x r = some (b1, fp1, row) ∧ b1.m_Grib_Data = some data := by
  unfold IReadBlock
  cases hd : b.m_Grib_Data with
  | none =>
    have hdec : (env.ReadGrib2Record b.start b.subgNum).1 = some data := by
      simpa [GRIBRasterBand.decodedGrid, hd] using hgrid
    simp [ReadGribData, hdec, hrow]
  | some d =>
    have hdd : d = data := by
      simpa [GRIBRasterBand.decodedGrid, hd] using hgrid
    subst hdd
    simp [hd, hrow]

/-- The row offset of an in-range row, when the raster height and the offset fit
a 32-bit `int`. -/
theorem rowOffset_flipped (nx ny r : Nat) (hr : r < ny) (hyi : ny ≤ 2147483647)
    (hoff : nx * (ny - 1 - r) ≤ 2147483647) :
    rowOffset (nx : Int) (ny : Int) (r : Int) = some ((nx * (ny - 1 - r) : Nat) : Int) := by
  have e := flipped_offset nx ny r hr
  have h1 : checkedInt ((ny : Int) - (r : Int)) = some ((ny : Int) - (r : Int)) := by
    unfold checkedInt
    rw [if_pos (by omega)]
  have h2 : checkedInt ((ny : Int) - (r : Int) - 1) = some ((ny : Int) - (r : Int) - 1) := by
    unfold checkedInt
    rw [if_pos (by omega)]
  have h3 : checkedInt ((nx : Int) * ((ny : Int) - (r : Int) - 1)) =
      some ((nx * (ny - 1 - r) : Nat) : Int) := by
    rw [e]
    unfold checkedInt
    rw [if_pos (by omega)]
  unfold rowOffset
  rw [h1, Option.some_bind, h2, Option.some_bind, h3]

/-- A read whose row offset overflows is undefined, whatever the band holds. -/
theorem IReadBlock_overflow (env : Env) (b : GRIBRasterBand) (fp : FileDataSource) (x r : Int)
    (d : List ℚ) (hd : b.m_Grib_Data = some d)
    (hover : rowOffset b.nRasterXSize b.nRasterYSize r = none) :
    IReadBlock env b fp x r = none := by
  unfold IReadBlock
  simp only [hd]
  unfold copyBlock
  rw [hover]
  rfl

/-- C3, counterexample. A band of 50000 by 50000 samples holds a decoded grid of
`50000 * 50000` samples; for row 0 the offset `50000 * 49999 = 2499950000` does
not fit the `int` arithmetic of `IReadBlock`, and the read is undefined instead
of returning the last row of the buffer. -/
theorem IReadBlock_large_grid_counterexample :
    hugeBand.nRasterXSize = 50000 ∧ hugeBand.nRasterYSize = 50000 ∧
    hugeBand.decodedGrid sampleEnv = some (List.replicate 2500000000 0) ∧
    (List.replicate 2500000000 (0 : ℚ)).length = 50000 * 50000 ∧
    (2147483647 : Int) < 50000 * (50000 - 0 - 1) ∧
    IReadBlock sampleEnv hugeBand ⟨0, 2, 1⟩ 0 0 = none := by
  refine ⟨rfl, rfl, rfl, ?_, by decide, ?_⟩
  · rw [List.length_replicate]
  · exact IReadBlock_overflow sampleEnv hugeBand ⟨0, 2, 1⟩ 0 0 _ rfl (by decide)

/-- C3, amended. Take a band of raster size `nx` by `ny` with `nx ≥ 1` whose
decoded grid `data` holds `nx * ny` samples, and a row `r < ny` (so `ny ≥ 1`),
such that `ny` and the row offset `nx * (ny - 1 - r)` fit a 32-bit `int` (are at
most 2147483647).  Then `IReadBlock` with `nBlockYOff = r` succeeds, and the row
it returns has `nx` samples, namely those at positions `nx * (ny - 1 - r) + k`
for `k < nx` of `data`; that range ends inside the buffer.  Nothing is assumed
on the meta data of the band, so this holds whatever the scan mode is. -/
theorem IReadBlock_flipped_row (env : Env) (b : GRIBRasterBand) (fp : FileDataSource)
    (nBlockXOff : Int) (nx ny r : Nat) (data : List ℚ)
    (hX : b.nRasterXSize = nx) (hY : b.nRasterYSize = ny) (hnx : 1 ≤ nx) (hr : r < ny)
    (hyi : ny ≤ 2147483647) (hoff : nx * (ny - 1 - r) ≤ 2147483647)
    (hgrid : b.decodedGrid env = some data) (hlen : data.length = nx * ny) :
    ∃ b1 fp1 row, IReadBlock env b fp nBlockXOff (r : Int) = some (b1, fp1, row) ∧
      row = (data.drop (nx * (ny - 1 - r))).take nx ∧
      row.length = nx ∧
      nx * (ny - 1 - r) + nx ≤ data.length ∧
      ∀ k, k < nx → row[k]? = data[nx * (ny - 1 - r) + k]? ∧
        row[k]?.isSome = true := by
  have hin : nx * (ny - 1 - r) + nx ≤ data.length := by
    rw [hlen]; exact flipped_row_inside nx ny r hr
  have hrow : copyBlock data b.nRasterXSize b.nRasterYSize (r : Int) =
      some ((data.drop (nx * (ny - 1 - r))).take nx) := by
    unfold copyBlock
    rw [hX, hY, rowOffset_flipped nx ny r hr hyi hoff, Option.some_bind]
    exact memcpyRow_inside data _ nx hin
  obtain ⟨b1, fp1, h1, -⟩ := IReadBlock_of_grid env b fp nBlockXOff r data _ hgrid hrow
  have hl : ((data.drop (nx * (ny - 1 - r))).take nx).length = nx := by
    rw [List.length_take, List.length_drop]; omega
  refine ⟨b1, fp1, _, h1, rfl, hl, hin, ?_⟩
  intro k hk
  have e : ((data.drop (nx * (ny - 1 - r))).take nx)[k]? = data[nx * (ny - 1 - r) + k]? := by
    rw [List.getElem?_take_of_lt hk, List.getElem?_drop]
  refine ⟨e, ?_⟩
  rw [e]
  have hlt : nx * (ny - 1 - r) + k < data.length := by omega
  simp [List.getElem?_eq_getElem hlt]

/-- Witness of the amended C3: row 0 of the first sample band is the last row of
its buffer. -/
theorem IReadBlock_flipped_row_witness :
    ∃ b1 fp1 row, IReadBlock sampleEnv sampleBand1 ⟨0, 2, 1⟩ 0 ((0 : Nat) : Int) =
        some (b1, fp1, row) ∧
      row = (([1, 2, 3, 4, 5, 6, 7, 8, 9, 10, 11, 12] : List ℚ).drop (4 * (3 - 1 - 0))).take 4 ∧
      row.length = 4 ∧
      4 * (3 - 1 - 0) + 4 ≤ ([1, 2, 3, 4, 5, 6, 7, 8, 9, 10, 11, 12] : List ℚ).length ∧
      ∀ k, k < 4 → row[k]? =
          ([1, 2, 3, 4, 5, 6, 7, 8, 9, 10, 11, 12] : List ℚ)[4 * (3 - 1 - 0) + k]? ∧
        row[k]?.isSome = true :=
  IReadBlock_flipped_row sampleEnv sampleBand1 ⟨0, 2, 1⟩ 0 4 3 0
    [1, 2, 3, 4, 5, 6, 7, 8, 9, 10, 11, 12] rfl rfl (by decide) (by decide) (by decide)
    (by decide) rfl rfl

/-- A band that holds a buffer serves every read from it: neither the band nor
the stream changes. -/
theorem IReadBlock_cached (env : Env) (b : GRIBRasterBand) (fp : FileDataSource) (x r : Int)
    (d : List ℚ) (hd : b.m_Grib_Data = some d) :
    IReadBlock env b fp x r =
      (copyBlock d b.nRasterXSize b.nRasterYSize r).map fun row => (b, fp, row) := by
  unfold IReadBlock
  simp only [hd]
  cases copyBlock d b.nRasterXSize b.nRasterYSize r <;> rfl

/-- One step of a run of reads. -/
theorem readRows_cons (env : Env) (b b2 : GRIBRasterBand) (fp fp2 : FileDataSource) (r : Int)
    (rs : List Int) (out : List (List ℚ))
    (h : readRows env b fp (r :: rs) = some (b2, fp2, out)) :
    ∃ b1 fp1 row rows, IReadBlock env b fp 0 r = some (b1, fp1, row) ∧
      readRows env b1 fp1 rs = some (b2, fp2, rows) ∧ out = row :: rows := by
  simp only [readRows] at h
  split at h
  · exact absurd h (by simp)
  · rename_i b1 fp1 row h1
    split at h
    · exact absurd h (by simp)
    · rename_i b2' fp2' rows h2
      simp only [Option.some.injEq, Prod.mk.injEq] at h
      obtain ⟨rfl, rfl, rfl⟩ := h
      exact ⟨b1, fp1, row, rows, h1, h2, rfl⟩

/-- A run of reads on a band that holds a buffer changes neither the band nor
the stream. -/
theorem readRows_cached (env : Env) (rs : List Int) :
    ∀ (b b2 : GRIBRasterBand) (fp fp2 : FileDataSource) (out : List (List ℚ)) (d : List ℚ),
      b.m_Grib_Data = some d → readRows env b fp rs = some (b2, fp2, out) →
      b2 = b ∧ fp2 = fp := by
  induction rs with
  | nil =>
    intro b b2 fp fp2 out d _ h
    simp only [readRows, Option.some.injEq, Prod.mk.injEq] at h
    exact ⟨h.1.symm, h.2.1.symm⟩
  | cons r rs ih =>
    intro b b2 fp fp2 out d hd h
    obtain ⟨b1, fp1, row, rows, h1, h2, -⟩ := readRows_cons env b b2 fp fp2 r rs out h
    obtain ⟨e1, e2⟩ := (IReadBlock_state env b b1 fp fp1 0 r row h1).1 d hd
    subst e1 e2
    exact ih b1 b2 fp1 fp2 rows d hd h2

/-- C4. For every band and stream: (1) when a read of a row succeeds, reading
the same row again succeeds with the identical samples and leaves the band and
the stream (position, seek count, decode count) exactly as the first read left
them; (2) over any run of successful reads the stream sees at most one more
decode and one more seek than before the run, and a band that already holds a
buffer keeps it, the run then touching neither the band nor the stream;
(3) after a successful read the band holds a buffer. -/
theorem IReadBlock_decodes_at_most_once (env : Env) (b : GRIBRasterBand)
    (fp : FileDataSource) :
    (∀ (x r : Int) (b1 : GRIBRasterBand) (fp1 : FileDataSource) (row : List ℚ),
      IReadBlock env b fp x r = some (b1, fp1, row) →
      IReadBlock env b1 fp1 x r = some (b1, fp1, row)) ∧
    (∀ (rows : List Int) (b2 : GRIBRasterBand) (fp2 : FileDataSource) (out : List (List ℚ)),
      readRows env b fp rows = some (b2, fp2, out) →
      fp2.decodes ≤ fp.decodes + 1 ∧ fp2.seeks ≤ fp.seeks + 1 ∧
      ∀ d, b.m_Grib_Data = some d → b2 = b ∧ fp2 = fp) ∧
    (∀ (x r : Int) (b1 : GRIBRasterBand) (fp1 : FileDataSource) (row : List ℚ),
      IReadBlock env b fp x r = some (b1, fp1, row) → b1.m_Grib_Data.isSome = true) := by
  refine ⟨?_, ?_, ?_⟩
  · intro x r b1 fp1 row h
    obtain ⟨-, -, -, hsome, hx, hy, hrow⟩ := IReadBlock_state env b b1 fp fp1 x r row h
    obtain ⟨d, hd⟩ := Option.isSome_iff_exists.mp hsome
    rw [IReadBlock_cached env b1 fp1 x r d hd, hx, hy]
    rw [hd, Option.getD_some] at hrow
    rw [hrow]; rfl
  · intro rows b2 fp2 out h
    refine ⟨?_, ?_, fun d hd => readRows_cached env rows b b2 fp fp2 out d hd h⟩
    all_goals
      cases rows with
      | nil =>
        simp only [readRows, Option.some.injEq, Prod.mk.injEq] at h
        rw [← h.2.1]; omega
      | cons r rs =>
        obtain ⟨b1, fp1, row, rows1, h1, h2, -⟩ := readRows_cons env b b2 fp fp2 r rs out h
        obtain ⟨hc, hn, -, hsome, -⟩ := IReadBlock_state env b b1 fp fp1 0 r row h1
        obtain ⟨d1, hd1⟩ := Option.isSome_iff_exists.mp hsome
        obtain ⟨-, e2⟩ := readRows_cached env rs b1 b2 fp1 fp2 rows1 d1 hd1 h2
        subst e2
        cases hd : b.m_Grib_Data with
        | none => simp [hn hd]
        | some d => rw [(hc d hd).2]; omega
  · intro x r b1 fp1 row h
    exact (IReadBlock_state env b b1 fp fp1 x r row h).2.2.2.1

/-- Witness of C4 on the second sample band, which is decoded by its first read:
a run of three reads costs one decode. -/
theorem IReadBlock_decodes_at_most_once_witness :
    IReadBlock sampleEnv sampleBand2 ⟨0, 2, 1⟩ 0 0 =
      some ({ sampleBand2 with
          m_Grib_Data := some [21, 22, 23, 24, 25, 26, 27, 28, 29, 30, 31, 32]
          m_Grib_MetaData := some ⟨sampleGds⟩ }, ⟨100, 3, 2⟩, [29, 30, 31, 32]) ∧
    IReadBlock sampleEnv
        { sampleBand2 with
          m_Grib_Data := some [21, 22, 23, 24, 25, 26, 27, 28, 29, 30, 31, 32]
          m_Grib_MetaData := some ⟨sampleGds⟩ } ⟨100, 3, 2⟩ 0 0 =
      some ({ sampleBand2 with
          m_Grib_Data := some [21, 22, 23, 24, 25, 26, 27, 28, 29, 30, 31, 32]
          m_Grib_MetaData := some ⟨sampleGds⟩ }, ⟨100, 3, 2⟩, [29, 30, 31, 32]) ∧
    readRows sampleEnv sampleBand2 ⟨0, 2, 1⟩ [0, 0, 2] =
      some ({ sampleBand2 with
          m_Grib_Data := some [21, 22, 23, 24, 25, 26, 27, 28, 29, 30, 31, 32]
          m_Grib_MetaData := some ⟨sampleGds⟩ }, ⟨100, 3, 2⟩,
        [[29, 30, 31, 32], [29, 30, 31, 32], [21, 22, 23, 24]]) ∧
    (⟨100, 3, 2⟩ : FileDataSource).decodes ≤ (⟨0, 2, 1⟩ : FileDataSource).decodes + 1 :=
  ⟨by decide!,
    (IReadBlock_decodes_at_most_once sampleEnv sampleBand2 ⟨0, 2, 1⟩).1 0 0 _ _ _ (by decide!),
    by decide!,
    ((IReadBlock_decodes_at_most_once sampleEnv sampleBand2 ⟨0, 2, 1⟩).2.1 [0, 0, 2]
      { sampleBand2 with
        m_Grib_Data := some [21, 22, 23, 24, 25, 26, 27, 28, 29, 30, 31, 32]
        m_Grib_MetaData := some ⟨sampleGds⟩ } ⟨100, 3, 2⟩
      [[29, 30, 31, 32], [29, 30, 31, 32], [21, 22, 23, 24]] (by decide!)).1⟩

/-! ## Properties of `SetGribMetaData` -/

/-- The transform and the projection text that `SetGribMetaData` stores in a
freshly constructed dataset. -/
theorem SetGribMetaData_new (env : Env) (fp : FileDataSource) (meta : grib_MetaData) :
    (SetGribMetaData env (GRIBDataset.new env fp) meta).adfGeoTransform =
      [(georeference env meta.gds (builtSRS meta.gds)
          (OGRSpatialReference.empty.CopyGeogCSFrom (builtSRS meta.gds))).rMinX,
        (georeference env meta.gds (builtSRS meta.gds)
          (OGRSpatialReference.empty.CopyGeogCSFrom (builtSRS meta.gds))).rPixelSizeX,
        0,
        (georeference env meta.gds (builtSRS meta.gds)
          (OGRSpatialReference.empty.CopyGeogCSFrom (builtSRS meta.gds))).rMaxY,
        0,
        -(georeference env meta.gds (builtSRS meta.gds)
          (OGRSpatialReference.empty.CopyGeogCSFrom (builtSRS meta.gds))).rPixelSizeY] ∧
    (SetGribMetaData env (GRIBDataset.new env fp) meta).pszProjection =
      exportToWkt env (georeference env meta.gds (builtSRS meta.gds)
          (OGRSpatialReference.empty.CopyGeogCSFrom (builtSRS meta.gds))).oSRS := by
  constructor
  · simp [SetGribMetaData, GRIBDataset.new, builtSRS]
  · rfl

/-- The geometry of an opened dataset is the one `SetGribMetaData` derives, on a
freshly constructed dataset, from the first decode of `Open`. -/
theorem Open_geometry (env : Env) (info : GDALOpenInfo) (ds : GRIBDataset)
    (inv : inventoryType) (rest : List inventoryType) (fp : FileDataSource)
    (hInv : env.GRIB2Inventory.2 = inv :: rest) (h : Open env info = some ds) :
    ds.adfGeoTransform =
      (SetGribMetaData env (GRIBDataset.new env fp)
        (env.ReadGrib2Record 0 inv.subgNum).2).adfGeoTransform ∧
    ds.pszProjection =
      (SetGribMetaData env (GRIBDataset.new env fp)
        (env.ReadGrib2Record 0 inv.subgNum).2).pszProjection := by
  obtain ⟨fp0, ds0, -, -, -, hloop, rfl⟩ := Open_some env info ds h
  rw [hInv] at hloop
  by_cases hbad : (env.ReadGrib2Record 0 inv.subgNum).2.gds.Nx < 1 ∨
      (env.ReadGrib2Record 0 inv.subgNum).2.gds.Ny < 1
  · rw [(OpenLoop_zero_geometry env _ inv rest).1 hbad] at hloop
    exact absurd hloop (by simp)
  · obtain ⟨ds1, h1, -, -, hg, hp, -⟩ := (OpenLoop_zero_geometry env
      (GRIBDataset.new env { fp0 with pos := 0, seeks := fp0.seeks + 1 }) inv rest).2 hbad
    rw [hloop] at h1
    have e : ds0 = ds1 := by simpa using h1
    subst e
    exact ⟨hg, hp⟩

/-- C5. For a grid definition of kind lat/lon or Gaussian lat/lon whose scan
byte equals `GRIB2BIT_2` (rows south to north), the geo-transform that
`SetGribMetaData` stores in the freshly constructed dataset is
`(lon1, Dx, 0, lat1 + (Ny - 1) * Dy, 0, -Dy)`; with `Ny = 3`, `lon1 = 10`,
`lat1 = 50`, `Dx = Dy = 1` it is `(10, 1, 0, 52, 0, -1)`; and a dataset that
`Open` returns after decoding such a first grid has that geo-transform. -/
theorem SetGribMetaData_geographic_south_north (env : Env) (fp : FileDataSource)
    (meta : grib_MetaData)
    (hproj : meta.gds.projType = .GS3_LATLON ∨ meta.gds.projType = .GS3_GAUSSIAN_LATLON)
    (hscan : meta.gds.scan = GRIB2BIT_2) :
    (SetGribMetaData env (GRIBDataset.new env fp) meta).GetGeoTransform =
      [meta.gds.lon1, meta.gds.Dx, 0,
        meta.gds.lat1 + ((meta.gds.Ny : ℚ) - 1) * meta.gds.Dy, 0, -meta.gds.Dy] ∧
    (meta.gds.Ny = 3 → meta.gds.lon1 = 10 → meta.gds.lat1 = 50 → meta.gds.Dx = 1 →
      meta.gds.Dy = 1 →
      (SetGribMetaData env (GRIBDataset.new env fp) meta).GetGeoTransform =
        [10, 1, 0, 52, 0, -1]) ∧
    (∀ (info : GDALOpenInfo) (ds : GRIBDataset) (inv : inventoryType)
      (rest : List inventoryType), env.GRIB2Inventory.2 = inv :: rest →
      (env.ReadGrib2Record 0 inv.subgNum).2 = meta → Open env info = some ds →
      ds.GetGeoTransform =
        [meta.gds.lon1, meta.gds.Dx, 0,
          meta.gds.lat1 + ((meta.gds.Ny : ℚ) - 1) * meta.gds.Dy, 0, -meta.gds.Dy]) := by
  have hnp : (builtSRS meta.gds).IsProjected = false := by
    rcases hproj with h | h <;>
      simp [builtSRS, setGeogCS, setProjection, h, OGRSpatialReference.IsProjected,
        OGRSpatialReference.SetGeogCS, OGRSpatialReference.empty] <;>
      split <;> rfl
  have hno : meta.gds.projType ≠ .GS3_ORTHOGRAPHIC := by
    rcases hproj with h | h <;> rw [h] <;> decide
  have main : (SetGribMetaData env (GRIBDataset.new env fp) meta).GetGeoTransform =
      [meta.gds.lon1, meta.gds.Dx, 0,
        meta.gds.lat1 + ((meta.gds.Ny : ℚ) - 1) * meta.gds.Dy, 0, -meta.gds.Dy] := by
    unfold GRIBDataset.GetGeoTransform
    rw [(SetGribMetaData_new env fp meta).1]
    simp [georeference, hno, hnp, hscan]
  refine ⟨main, ?_, ?_⟩
  · intro hy hlon hlat hdx hdy
    rw [main, hy, hlon, hlat, hdx, hdy]
    norm_num
  · intro info ds inv rest hInv hmeta hopen
    unfold GRIBDataset.GetGeoTransform
    rw [(Open_geometry env info ds inv rest fp hInv hopen).1, hmeta]
    exact main

/-- Witness of C5 on the sample grid. -/
theorem SetGribMetaData_geographic_south_north_witness :
    (SetGribMetaData sampleEnv (GRIBDataset.new sampleEnv ⟨0, 1, 0⟩)
      ⟨sampleGds⟩).GetGeoTransform = [10, 1, 0, 52, 0, -1] :=
  (SetGribMetaData_geographic_south_north sampleEnv ⟨0, 1, 0⟩ ⟨sampleGds⟩
    (Or.inl rfl) rfl).2.1 rfl rfl rfl rfl rfl

/-- C6. For a grid definition of kind Mercator, polar stereographic or Lambert
whose coordinate transformation is unavailable or reports failure,
`SetGribMetaData` leaves in the freshly constructed dataset the empty
projection reference and the geo-transform `(0, 1, 0, 0, 0, 1)`; and `Open` is
not aborted by it: with the probes passed and both dimensions of that first
grid at least one, `Open` returns a dataset, whose projection reference is
empty and whose geo-transform is `(0, 1, 0, 0, 0, 1)`. -/
theorem SetGribMetaData_transform_failure (env : Env) (fp : FileDataSource)
    (meta : grib_MetaData)
    (hproj : meta.gds.projType = .GS3_MERCATOR ∨ meta.gds.projType = .GS3_POLAR ∨
      meta.gds.projType = .GS3_LAMBERT)
    (hfail : transformFails env meta.gds = true) :
    (SetGribMetaData env (GRIBDataset.new env fp) meta).GetProjectionRef = "" ∧
    (SetGribMetaData env (GRIBDataset.new env fp) meta).GetGeoTransform = [0, 1, 0, 0, 0, 1] ∧
    (∀ (info : GDALOpenInfo) (inv : inventoryType) (rest : List inventoryType),
      env.GRIB2Inventory.2 = inv :: rest → (env.ReadGrib2Record 0 inv.subgNum).2 = meta →
      1 ≤ meta.gds.Nx → 1 ≤ meta.gds.Ny →
      info.fp.isSome = true → 0 ≤ env.ReadSECT0 → 0 < env.GRIB2Inventory.1 →
      ∃ ds, Open env info = some ds ∧ ds.GetProjectionRef = "" ∧
        ds.GetGeoTransform = [0, 1, 0, 0, 0, 1]) := by
  have hp : (builtSRS meta.gds).IsProjected = true := by
    rcases hproj with h | h | h <;>
      simp [builtSRS, setGeogCS, setProjection, h, OGRSpatialReference.IsProjected,
        OGRSpatialReference.SetGeogCS, OGRSpatialReference.empty,
        OGRSpatialReference.SetMercator, OGRSpatialReference.SetPS,
        OGRSpatialReference.SetLCC] <;>
      split <;> rfl
  have hno : meta.gds.projType ≠ .GS3_ORTHOGRAPHIC := by
    rcases hproj with h | h | h <;> rw [h] <;> decide
  have hg : georeference env meta.gds (builtSRS meta.gds)
      (OGRSpatialReference.empty.CopyGeogCSFrom (builtSRS meta.gds)) =
      georefFallback (builtSRS meta.gds) := by
    unfold transformFails at hfail
    unfold georeference
    rw [if_neg hno, if_pos hp]
    cases ht : env.OGRCreateCoordinateTransformation
        (OGRSpatialReference.empty.CopyGeogCSFrom (builtSRS meta.gds)) (builtSRS meta.gds) with
    | none => rfl
    | some t =>
      rw [ht] at hfail
      simp only [Bool.not_eq_true'] at hfail
      simp [hfail]
  have h1 : (SetGribMetaData env (GRIBDataset.new env fp) meta).GetProjectionRef = "" := by
    unfold GRIBDataset.GetProjectionRef
    rw [(SetGribMetaData_new env fp meta).2, hg]
    simp [georefFallback, OGRSpatialReference.Clear, exportToWkt]
  have h2 : (SetGribMetaData env (GRIBDataset.new env fp) meta).GetGeoTransform =
      [0, 1, 0, 0, 0, 1] := by
    unfold GRIBDataset.GetGeoTransform
    rw [(SetGribMetaData_new env fp meta).1, hg]
    simp [georefFallback]
  refine ⟨h1, h2, ?_⟩
  intro info inv rest hInv hmeta hx hy hfp hs hr
  obtain ⟨ds, hds⟩ := Open_succeeds env info inv rest hInv
    (by rw [hmeta]; exact hx) (by rw [hmeta]; exact hy) hfp hs hr
  obtain ⟨e1, e2⟩ := Open_geometry env info ds inv rest fp hInv hds
  rw [hmeta] at e1 e2
  exact ⟨ds, hds, e2.trans h1, e1.trans h2⟩

/-- Witness of C6 on the Mercator stream, for which no transformation exists. -/
theorem SetGribMetaData_transform_failure_witness :
    transformFails mercatorEnv mercatorGds = true ∧
    (SetGribMetaData mercatorEnv (GRIBDataset.new mercatorEnv ⟨0, 1, 0⟩)
      ⟨mercatorGds⟩).GetProjectionRef = "" ∧
    (SetGribMetaData mercatorEnv (GRIBDataset.new mercatorEnv ⟨0, 1, 0⟩)
      ⟨mercatorGds⟩).GetGeoTransform = [0, 1, 0, 0, 0, 1] ∧
    ∃ ds, Open mercatorEnv ⟨some ⟨0, 0, 0⟩, "mercator.grb"⟩ = some ds ∧
      ds.GetProjectionRef = "" ∧ ds.GetGeoTransform = [0, 1, 0, 0, 0, 1] :=
  ⟨rfl,
    (SetGribMetaData_transform_failure mercatorEnv ⟨0, 1, 0⟩ ⟨mercatorGds⟩
      (Or.inl rfl) rfl).1,
    (SetGribMetaData_transform_failure mercatorEnv ⟨0, 1, 0⟩ ⟨mercatorGds⟩
      (Or.inl rfl) rfl).2.1,
    (SetGribMetaData_transform_failure mercatorEnv ⟨0, 1, 0⟩ ⟨mercatorGds⟩
      (Or.inl rfl) rfl).2.2 ⟨some ⟨0, 0, 0⟩, "mercator.grb"⟩ ⟨0, 0, some "0-SFC"⟩ [] rfl rfl
      (by decide) (by decide) rfl (by decide) (by decide)⟩

/-- An inventory scan that returned a positive value and built no record would
get past the only test `Open` makes on it, and give a dataset without bands:
`Open` relies on the scan contract for never doing so. -/
theorem Open_positive_return_empty_inventory (env : Env) (info : GDALOpenInfo)
    (fp : FileDataSource) (hfp : info.fp = some fp) (hs : 0 ≤ env.ReadSECT0)
    (hr : 0 < env.GRIB2Inventory.1) (hInv : env.GRIB2Inventory.2 = []) :
    ∃ ds, Open env info = some ds ∧ ds.papoBands = [] := by
  rw [Open_of_probes env info fp hfp hs hr, hInv]
  exact ⟨_, rfl, rfl⟩

/-- C7. Under the contract of the inventory scan (its return value is not
positive when it produced no record): when the inventory is empty `Open`
returns no dataset, and every dataset that `Open` returns has at least one
band, its first band being present. -/
theorem Open_never_empty (env : Env) (info : GDALOpenInfo)
    (hscan : scanContract env.GRIB2Inventory = true) :
    (env.GRIB2Inventory.2.length = 0 → Open env info = none) ∧
    (∀ ds, Open env info = some ds →
      1 ≤ ds.papoBands.length ∧ ∃ b, ds.papoBands[0]? = some (some b)) := by
  have hne : ∀ ds, Open env info = some ds → env.GRIB2Inventory.2 ≠ [] := by
    intro ds h hnil
    obtain ⟨fp, ds0, -, -, hr, -, -⟩ := Open_some env info ds h
    unfold scanContract at hscan
    rw [hnil] at hscan
    simp at hscan
    omega
  constructor
  · intro hlen
    cases hopen : Open env info with
    | none => rfl
    | some ds => exact absurd (List.length_eq_zero.mp hlen) (hne ds hopen)
  · intro ds hopen
    obtain ⟨fp, ds0, -, -, -, hloop, rfl⟩ := Open_some env info ds hopen
    obtain ⟨h1, -, h3⟩ := OpenLoop_bands env env.GRIB2Inventory.2 0
      (GRIBDataset.new env { fp with pos := 0, seeks := fp.seeks + 1 }) ds0 rfl hloop
    cases hI : env.GRIB2Inventory.2 with
    | nil => exact absurd hI (hne _ hopen)
    | cons inv rest =>
      rw [hI] at h1 h3
      obtain ⟨b, hb, -⟩ := h3 0 inv (by simp)
      refine ⟨?_, b, by simpa using hb⟩
      show 1 ≤ ds0.papoBands.length
      rw [h1]; simp

/-- Witness of C7 on the sample stream. -/
theorem Open_never_empty_witness :
    scanContract sampleEnv.GRIB2Inventory = true ∧
    Open sampleEnv sampleInfo = some sampleDataset ∧
    1 ≤ sampleDataset.papoBands.length :=
  ⟨rfl, by decide!,
    ((Open_never_empty sampleEnv sampleInfo rfl).2 sampleDataset (by decide!)).1⟩

/-! ## Properties of `GetDescription` -/

/-- C8, counterexample. The second record of the sample inventory has an empty
level label; the band that `Open` builds for it describes itself by that empty
label, not by the base class description, which is "default" there. -/
theorem GetDescription_empty_label_counterexample :
    Open sampleEnv sampleInfo = some sampleDataset ∧
    sampleEnv.GRIB2Inventory.2[1]? = some ⟨100, 0, some ""⟩ ∧
    sampleDataset.papoBands[1]? = some (some sampleBand2) ∧
    sampleBand2.GetDescription sampleEnv = "" ∧
    sampleEnv.PamDescription sampleBand2.nBand = "default" ∧
    sampleBand2.GetDescription sampleEnv ≠ sampleEnv.PamDescription sampleBand2.nBand := by
  refine ⟨by decide!, rfl, rfl, rfl, rfl, ?_⟩
  decide

/-- C8, amended. A band constructed from a level label describes itself by the
copy of the label that the constructor stored, whenever that copy is not null:
when `CPLStrdup` gives back the label `s` (empty or not), the description is
`s`.  The base class description is returned only when the stored pointer is
null. -/
theorem GetDescription_stored_label (env : Env) (poDS : GRIBDataset) (nBand start subgNum : Int) :
    (∀ s : String, env.CPLStrdup (some s) = some s →
      (GRIBRasterBand.new env poDS nBand start subgNum (some s)).GetDescription env = s) ∧
    (∀ label : Option String, env.CPLStrdup label = none →
      (GRIBRasterBand.new env poDS nBand start subgNum label).GetDescription env =
        env.PamDescription nBand) := by
  constructor
  · intro s hs
    simp [GRIBRasterBand.GetDescription, GRIBRasterBand.new, hs]
  · intro label hl
    simp [GRIBRasterBand.GetDescription, GRIBRasterBand.new, hl]

/-- Witness of the amended C8 on the sample collaborators. -/
theorem GetDescription_stored_label_witness :
    (GRIBRasterBand.new sampleEnv sampleDataset 1 0 0 (some "2-HTGL")).GetDescription sampleEnv =
      "2-HTGL" ∧
    (GRIBRasterBand.new sampleEnv sampleDataset 2 100 0 (some "")).GetDescription sampleEnv = "" :=
  ⟨(GetDescription_stored_label sampleEnv sampleDataset 1 0 0).1 "2-HTGL" rfl,
    (GetDescription_stored_label sampleEnv sampleDataset 2 100 0).1 "" rfl⟩

/-! ## Earth shape and projection parameters -/

/-- The quotient of the two default radii is finite. -/
theorem doubleDiv_default_radii :
    doubleDiv 6377563.396 (6377563.396 - 6356256.910) =
      .finite (6377563.396 / (6377563.396 - 6356256.910)) := by
  unfold doubleDiv
  rw [if_neg (by norm_num)]

/-- C9, counterexample. For an ellipsoid (not a sphere) with both radii zero the
semi-major axis handed to `SetGeogCS` is the default 6377563.396, not
`majEarth * 1000 = 0`, and the inverse flattening is computed from the two
default radii. -/
theorem earth_shape_ellipsoid_counterexample :
    zeroRadiiGds.f_sphere = false ∧
    (builtSRS zeroRadiiGds).geogcs =
      some ⟨"Coordinate System imported from GRIB file", none,
        "Spheroid imported from GRIB file", 6377563.396,
        .finite (6377563.396 / (6377563.396 - 6356256.910))⟩ ∧
    ¬ ∃ g, (builtSRS zeroRadiiGds).geogcs = some g ∧
      g.dfSemiMajor = zeroRadiiGds.majEarth * 1000 := by
  have h : (builtSRS zeroRadiiGds).geogcs =
      some ⟨"Coordinate System imported from GRIB file", none,
        "Spheroid imported from GRIB file", 6377563.396,
        .finite (6377563.396 / (6377563.396 - 6356256.910))⟩ := by
    simp [builtSRS, setGeogCS, earthRadii, zeroRadiiGds, OGRSpatialReference.SetGeogCS,
      doubleDiv_default_radii]
  refine ⟨rfl, h, ?_⟩
  rintro ⟨g, hg, ha⟩
  rw [h] at hg
  simp only [Option.some.injEq] at hg
  subst hg
  simp only [zeroRadiiGds] at ha
  norm_num at ha

/-- C9, amended. The radii in metres are `a = majEarth * 1000` and
`b = minEarth * 1000`, both replaced by the defaults 6377563.396 and
6356256.910 when both radii are zero, for a sphere and for an ellipsoid alike.
For a sphere `SetGeogCS` receives the radius `a` and inverse flattening 0;
otherwise it receives the semi-major axis `a` and, as inverse flattening, the
`double` quotient `a / (a - b)`: the finite quotient when the radii differ, and
an infinity when they are equal (positive for a positive radius). -/
theorem earth_shape (gds : gdsType) :
    ∃ g, (builtSRS gds).geogcs = some g ∧
      (¬ (gds.majEarth = 0 ∧ gds.minEarth = 0) → g.dfSemiMajor = gds.majEarth * 1000) ∧
      (gds.majEarth = 0 ∧ gds.minEarth = 0 → g.dfSemiMajor = 6377563.396) ∧
      (gds.f_sphere = true → g.dfInvFlattening = .finite 0 ∧ g.pszSpheroidName = "Sphere") ∧
      (gds.f_sphere = false → ¬ (gds.majEarth = 0 ∧ gds.minEarth = 0) →
        g.dfInvFlattening =
          doubleDiv (gds.majEarth * 1000) (gds.majEarth * 1000 - gds.minEarth * 1000)) ∧
      (gds.f_sphere = false → gds.majEarth ≠ gds.minEarth →
        g.dfInvFlattening =
          .finite (gds.majEarth * 1000 / (gds.majEarth * 1000 - gds.minEarth * 1000))) ∧
      (gds.f_sphere = false → gds.majEarth = gds.minEarth → 0 < gds.majEarth →
        g.dfInvFlattening = .posInf) ∧
      (gds.f_sphere = false → gds.majEarth = 0 ∧ gds.minEarth = 0 →
        g.dfInvFlattening = .finite (6377563.396 / (6377563.396 - 6356256.910))) := by
  have hz : (gds.majEarth * 1000 = 0 ∧ gds.minEarth * 1000 = 0) ↔
      (gds.majEarth = 0 ∧ gds.minEarth = 0) := by
    constructor
    · rintro ⟨h1, h2⟩
      exact ⟨by linarith, by linarith⟩
    · rintro ⟨h1, h2⟩
      rw [h1, h2]; norm_num
  have hne : gds.majEarth ≠ gds.minEarth →
      doubleDiv (gds.majEarth * 1000) (gds.majEarth * 1000 - gds.minEarth * 1000) =
        .finite (gds.majEarth * 1000 / (gds.majEarth * 1000 - gds.minEarth * 1000)) := by
    intro h
    unfold doubleDiv
    rw [if_neg]
    intro h0
    exact h (by linarith)
  have heq : gds.majEarth = gds.minEarth → 0 < gds.majEarth →
      doubleDiv (gds.majEarth * 1000) (gds.majEarth * 1000 - gds.minEarth * 1000) =
        .posInf := by
    intro h hpos
    unfold doubleDiv
    rw [if_pos (by rw [h]; ring), if_pos (by linarith)]
  have hnz : ¬ (gds.majEarth = 0 ∧ gds.minEarth = 0) → gds.majEarth ≠ gds.minEarth ∨
      gds.majEarth = gds.minEarth := fun _ => ne_or_eq _ _
  cases hs : gds.f_sphere <;> by_cases hb : gds.majEarth = 0 ∧ gds.minEarth = 0
  all_goals
    have hb1 := hb
    rw [← hz] at hb1
    refine ⟨_, by simp only [builtSRS, setGeogCS, hs, OGRSpatialReference.SetGeogCS]; rfl,
      ?_, ?_, ?_, ?_, ?_, ?_, ?_⟩
  all_goals simp [earthRadii, hb, hb1, doubleDiv_default_radii]
  all_goals first
    | exact hne
    | exact heq
    | exact fun h hpos => heq h hpos
    | exact fun h => absurd (hb.1.trans hb.2.symm) h
    | exact fun h hpos => absurd (hb.1 ▸ hpos) (lt_irrefl 0)

/-- Witness of the amended C9: the sample grid, a sphere of radius 6371 km, and
an ellipsoid whose two radii are both 6371 km. -/
theorem earth_shape_witness :
    (∃ g, (builtSRS sampleGds).geogcs = some g ∧ g.dfSemiMajor = 6371 * 1000 ∧
      g.dfInvFlattening = .finite 0) ∧
    (∃ g, (builtSRS equalRadiiGds).geogcs = some g ∧ g.dfSemiMajor = 6371 * 1000 ∧
      g.dfInvFlattening = .posInf) := by
  constructor
  · obtain ⟨g, hg, h1, -, h3, -⟩ := earth_shape sampleGds
    exact ⟨g, hg, h1 (by simp [sampleGds]), (h3 rfl).1⟩
  · obtain ⟨g, hg, h1, -, -, -, -, h6, -⟩ := earth_shape equalRadiiGds
    exact ⟨g, hg, h1 (by simp [equalRadiiGds]), h6 rfl rfl (by simp [equalRadiiGds])⟩

/-- C10, counterexample. On a polar stereographic grid with `meshLat = 60`,
`orientLon = -105` and `scaleLat1 = 90` the call is `SetPS(60, -105, 90, 0, 0)`:
the latitude argument is `meshLat` and not `scaleLat1`, and `scaleLat1` is the
scale argument. -/
theorem polar_stereographic_counterexample :
    polarGds.projType = .GS3_POLAR ∧
    (builtSRS polarGds).projcs = some (.PS 60 (-105) 90 0 0) ∧
    (¬ ∃ lon scale fe fn,
      (builtSRS polarGds).projcs = some (.PS polarGds.scaleLat1 lon scale fe fn)) ∧
    ∃ lat lon fe fn,
      (builtSRS polarGds).projcs = some (.PS lat lon polarGds.scaleLat1 fe fn) := by
  have h : (builtSRS polarGds).projcs = some (.PS 60 (-105) 90 0 0) := by
    simp [builtSRS, setGeogCS, setProjection, polarGds, OGRSpatialReference.SetGeogCS,
      OGRSpatialReference.SetPS, OGRSpatialReference.empty]
  refine ⟨rfl, h, ?_, 60, -105, 0, 0, h⟩
  rintro ⟨lon, scale, fe, fn, hc⟩
  rw [h] at hc
  simp only [Option.some.injEq, ProjCS.PS.injEq, polarGds] at hc
  norm_num at hc

/-- C10, amended. For every polar stereographic grid definition the spatial
reference is built by `SetPS` with latitude `meshLat`, central meridian
`orientLon`, and false easting and northing 0. -/
theorem polar_stereographic_parameters (gds : gdsType) (hproj : gds.projType = .GS3_POLAR) :
    ∃ scale, (builtSRS gds).projcs = some (.PS gds.meshLat gds.orientLon scale 0 0) := by
  refine ⟨gds.scaleLat1, ?_⟩
  simp only [builtSRS, setGeogCS, setProjection, hproj, OGRSpatialReference.SetGeogCS,
    OGRSpatialReference.SetPS, OGRSpatialReference.empty]
  split <;> rfl

/-- Witness of the amended C10 on the sample polar grid. -/
theorem polar_stereographic_parameters_witness :
    ∃ scale, (builtSRS polarGds).projcs = some (.PS 60 (-105) scale 0 0) :=
  polar_stereographic_parameters polarGds rfl

/-! ## The first decode of `Open` -/

/-- C12, counterexample. The scan byte 192 has the south to north bit (value
64) set, together with the bit of value 128.  On the geographic sample grid
with that scan byte the Y origin stays at `lat1 = 50`; it is not moved to
`lat1 + (Ny - 1) * Dy = 52`. -/
theorem scan_bit_with_other_flags_counterexample :
    flagsGds.scan = 192 ∧ Nat.testBit flagsGds.scan 6 = true ∧
    flagsGds.scan &&& GRIB2BIT_2 = GRIB2BIT_2 ∧
    flagsGds.lat1 + ((flagsGds.Ny : ℚ) - 1) * flagsGds.Dy = 52 ∧
    (SetGribMetaData sampleEnv (GRIBDataset.new sampleEnv ⟨0, 1, 0⟩)
      ⟨flagsGds⟩).GetGeoTransform = [10, 1, 0, 50, 0, -1] ∧
    (SetGribMetaData sampleEnv (GRIBDataset.new sampleEnv ⟨0, 1, 0⟩)
      ⟨flagsGds⟩).GetGeoTransform[3]? ≠
        some (flagsGds.lat1 + ((flagsGds.Ny : ℚ) - 1) * flagsGds.Dy) := by
  refine ⟨rfl, by decide, by decide, by decide!, by decide!, by decide!⟩

/-- C12, amended. For a grid definition that is not geostationary and whose
first point in the coordinate system of the dataset is `(x, y)`, that is
`(lon1, lat1)` for an unprojected grid and the successfully transformed point
for a projected one: when the scan byte equals `GRIB2BIT_2` (the south to north
bit and no other) the geo-transform is `(x, Dx, 0, y + (Ny - 1) * Dy, 0, -Dy)`,
and for every other scan byte it is `(x, Dx, 0, y, 0, -Dy)`. -/
theorem SetGribMetaData_scan_equality (env : Env) (fp : FileDataSource) (meta : grib_MetaData)
    (x y : ℚ) (hno : meta.gds.projType ≠ .GS3_ORTHOGRAPHIC)
    (hp : firstPoint env meta.gds = some (x, y)) :
    (meta.gds.scan = GRIB2BIT_2 →
      (SetGribMetaData env (GRIBDataset.new env fp) meta).GetGeoTransform =
        [x, meta.gds.Dx, 0, y + ((meta.gds.Ny : ℚ) - 1) * meta.gds.Dy, 0, -meta.gds.Dy]) ∧
    (meta.gds.scan ≠ GRIB2BIT_2 →
      (SetGribMetaData env (GRIBDataset.new env fp) meta).GetGeoTransform =
        [x, meta.gds.Dx, 0, y, 0, -meta.gds.Dy]) := by
  unfold GRIBDataset.GetGeoTransform
  rw [(SetGribMetaData_new env fp meta).1]
  unfold firstPoint at hp
  unfold georeference
  rw [if_neg hno]
  cases hproj : (builtSRS meta.gds).IsProjected with
  | false =>
    rw [hproj] at hp
    simp only [Bool.false_eq_true, if_false, Option.some.injEq, Prod.mk.injEq] at hp
    obtain ⟨rfl, rfl⟩ := hp
    constructor
    · intro hs
      simp [hs]
    · intro hs
      simp [hs]
  | true =>
    rw [hproj] at hp
    simp only [if_true] at hp
    cases ht : env.OGRCreateCoordinateTransformation
        (OGRSpatialReference.empty.CopyGeogCSFrom (builtSRS meta.gds)) (builtSRS meta.gds) with
    | none =>
      rw [ht] at hp
      exact absurd hp (by simp)
    | some t =>
      rw [ht] at hp
      simp only at hp
      by_cases hok : (t meta.gds.lon1 meta.gds.lat1).1 = true
      · rw [if_pos hok] at hp
        simp only [Option.some.injEq] at hp
        constructor
        · intro hs
          simp [hok, hs, hp]
        · intro hs
          simp [hok, hs, hp]
      · rw [if_neg hok] at hp
        exact absurd hp (by simp)

/-- Witness of the amended C12: the sample grid with scan byte 64 and with scan
byte 192, and the Mercator grid with a transformation that succeeds. -/
theorem SetGribMetaData_scan_equality_witness :
    (SetGribMetaData sampleEnv (GRIBDataset.new sampleEnv ⟨0, 1, 0⟩)
      ⟨sampleGds⟩).GetGeoTransform = [10, 1, 0, 50 + ((3 : ℚ) - 1) * 1, 0, -1] ∧
    (SetGribMetaData sampleEnv (GRIBDataset.new sampleEnv ⟨0, 1, 0⟩)
      ⟨flagsGds⟩).GetGeoTransform = [10, 1, 0, 50, 0, -1] ∧
    (SetGribMetaData projectedEnv (GRIBDataset.new projectedEnv ⟨0, 1, 0⟩)
      ⟨mercatorGds⟩).GetGeoTransform =
        [5 * 1000, 1000, 0, 40 * 1000 + ((2 : ℚ) - 1) * 1000, 0, -1000] :=
  ⟨(SetGribMetaData_scan_equality sampleEnv ⟨0, 1, 0⟩ ⟨sampleGds⟩ 10 50 (by decide) rfl).1 rfl,
    (SetGribMetaData_scan_equality sampleEnv ⟨0, 1, 0⟩ ⟨flagsGds⟩ 10 50 (by decide) rfl).2
      (by decide),
    (SetGribMetaData_scan_equality projectedEnv ⟨0, 1, 0⟩ ⟨mercatorGds⟩ (5 * 1000) (40 * 1000)
      (by decide) rfl).1 rfl⟩

end GRIB
